import Mathlib

/-!
Verification development for the dynamic-wave conduit flow solver
(`dwflow.c`) and the symbolic expression evaluator (`mathexpr.c`) of the
Stormwater Management Model.

Real (double) arithmetic is modelled over `ℚ`; the external helper
functions that the solver calls (cross-section geometry, Froude number,
culvert inflow, the C math library, ...) are parameters gathered in the
`Ext` structure, so every theorem quantifies over their behaviour.
Constants and macros that live in headers not present in the sources
(`FUDGE`, `GRAVITY`, `SGN`, the enum codes) are modelled from the spec and
flagged as such in their doc comments.
-/

namespace SWMM

/-- Modelled from the spec: the constant `FUDGE` is defined in `headers.h`,
which is not among the sources; the spec describes it as "a small positive
geometric floor (e.g. 1e-6 ft)". Its exact value is irrelevant to the
structural properties proved below. -/
def FUDGE : ℚ := 1 / 1000000

/-- Modelled from the spec: the gravity constant `GRAVITY` from `headers.h`
(not among the sources); "gravity constant g in ft/s²", 32.2 in US units.
Only its symbolic identity matters below. -/
def GRAVITY : ℚ := 32.2

-- dwflow.c line 27: max. allowable velocity (ft/sec)
def MAXVELOCITY : ℚ := 50

/-- Modelled from the spec: the `SGN` macro from `macros.h` (not among the
sources); the spec writes `0.001·sign(q)` for the under-relaxation snap.
The macro maps negatives to -1 and everything else (including 0) to 1. -/
def SGN (x : ℚ) : ℚ := if x < 0 then -1 else 1

/-- Modelled from the spec: flow classification codes from `enums.h`
(not among the sources): dry, subcritical, supercritical,
upstream-critical, downstream-critical, upstream-dry, downstream-dry. -/
inductive FlowClass where
  | DRY
  | SUBCRITICAL
  | SUPCRITICAL
  | UP_CRITICAL
  | DN_CRITICAL
  | UP_DRY
  | DN_DRY
deriving DecidableEq, Repr

/-- Modelled from the spec: node type codes from `enums.h` (not among the
sources); the solver only distinguishes outfalls from everything else. -/
inductive NodeType where
  | JUNCTION
  | OUTFALL
  | STORAGE
  | DIVIDER
deriving DecidableEq, Repr

/-- Modelled from the spec: inertial damping modes from `enums.h`
(not among the sources). `SOME_DAMPING` stands for the C enum value
`PARTIAL_DAMPING` (renamed here for technical reasons only). -/
inductive DampingMode where
  | NO_DAMPING
  | SOME_DAMPING
  | FULL_DAMPING
deriving DecidableEq, Repr

/-- Modelled from the spec: normal-flow limitation modes from `enums.h`
(not among the sources). -/
inductive NormalFlowType where
  | SLOPE
  | FROUDE
  | BOTH
deriving DecidableEq, Repr

/-- Modelled from the spec: the cross-section shape code for a force main
(`FORCE_MAIN` in `enums.h`, not among the sources); only its distinctness
from other codes matters. -/
def FORCE_MAIN : ℕ := 11

/-- Cross-section descriptor (the fields of `TXsect` read by dwflow.c). -/
structure TXsect where
  shape : ℕ            -- xsect->type in the C code
  yFull : ℚ
  aFull : ℚ
  culvertCode : ℕ
deriving DecidableEq, Repr

/-- Node state consumed by the solver (fields of `TNode` read by dwflow.c). -/
structure TNode where
  ntype : NodeType     -- Node[n].type in the C code
  invertElev : ℚ
  newDepth : ℚ
deriving DecidableEq, Repr

/-- Link record: the fields of `TLink` read or written by dwflow.c. -/
structure TLink where
  subIndex : ℕ
  node1 : ℕ
  node2 : ℕ
  offset1 : ℚ
  offset2 : ℚ
  xsect : TXsect
  setting : ℚ
  oldFlow : ℚ
  qLimit : ℚ
  cLossInlet : ℚ
  cLossOutlet : ℚ
  cLossAvg : ℚ
  flowClass : FlowClass
  froude : ℚ
  newDepth : ℚ
  newVolume : ℚ
  newFlow : ℚ
  dqdh : ℚ
  surfArea1 : ℚ
  surfArea2 : ℚ
  inletControl : Bool
  normalFlow : Bool
deriving DecidableEq, Repr

/-- Conduit record: the fields of `TConduit` read or written by dwflow.c. -/
structure TConduit where
  barrels : ℚ
  modLength : ℚ
  roughFactor : ℚ
  beta : ℚ
  hasLosses : Bool
  q1 : ℚ
  q2 : ℚ
  a1 : ℚ
  a2 : ℚ
  fullState : ℕ
deriving DecidableEq, Repr

/-- The project handle `SWMM_Project *sp`: per-index link, node and conduit
records plus the two global analysis options read by dwflow.c. -/
structure SWMM_Project where
  Link : ℕ → TLink
  Node : ℕ → TNode
  Conduit : ℕ → TConduit
  InertDamping : DampingMode
  NormalFlowLtd : NormalFlowType

/-- External collaborators invoked by dwflow.c through narrow interfaces
(their code is not among the sources); each field models one helper,
keyed the same way the C call sites are. `rpow` models the C library
`pow`, and `culvert_getInflow` also returns the inlet-control flag that
the C helper sets on the link. -/
structure Ext where
  link_getLength : ℕ → ℚ
  link_getFroude : ℕ → ℚ → ℚ → ℚ
  link_getYnorm : ℕ → ℚ → ℚ
  link_getYcrit : ℕ → ℚ → ℚ
  link_getLossRate : ℕ → ℚ → ℚ → ℚ
  link_setFlapGate : ℕ → ℕ → ℕ → ℚ → Bool
  link_getFullState : ℚ → ℚ → ℚ → ℕ
  forcemain_getFricSlope : ℕ → ℚ → ℚ → ℚ
  culvert_getInflow : ℕ → ℚ → ℚ → ℚ × Bool
  xsect_getAofY : TXsect → ℚ → ℚ
  xsect_getWofY : TXsect → ℚ → ℚ
  xsect_getRofY : TXsect → ℚ → ℚ
  xsect_isOpen : ℕ → Bool
  rpow : ℚ → ℚ → ℚ

-- dwflow.c lines 551-563: top width with the closed-conduit near-full
-- correction (substitute y = 0.96*yFull when y/yFull > 0.96 and closed).
def getWidth (ext : Ext) (xsect : TXsect) (y : ℚ) : ℚ :=
  let yNorm := y / xsect.yFull
  let y := if yNorm > 0.96 ∧ ¬ ext.xsect_isOpen xsect.shape then 0.96 * xsect.yFull else y
  ext.xsect_getWofY xsect y

-- dwflow.c lines 567-579: flow area at depth y (clamped to yFull).
def getArea (ext : Ext) (xsect : TXsect) (y : ℚ) : ℚ :=
  ext.xsect_getAofY xsect (min y xsect.yFull)

-- dwflow.c lines 583-595: hydraulic radius at depth y (clamped to yFull).
def getHydRad (ext : Ext) (xsect : TXsect) (y : ℚ) : ℚ :=
  ext.xsect_getRofY xsect (min y xsect.yFull)

-- dwflow.c lines 278-394: flow classification for a conduit based on the
-- depths at each end. The C routine returns its extra results through the
-- out-parameters *yC, *yN, *fasnh; yC0 and yN0 are the values the caller
-- put there, and the 2nd/3rd/4th components of the result are the values
-- left in *yC, *yN, *fasnh on return.
def getFlowClass (sp : SWMM_Project) (ext : Ext) (j : ℕ) (q h1 h2 y1 y2 yC0 yN0 : ℚ) :
    FlowClass × ℚ × ℚ × ℚ :=
  let link := sp.Link j
  let n1 := link.node1
  let n2 := link.node2
  let z1 := link.offset1
  let z2 := link.offset2
  -- lines 308-309: base offset of an outfall conduit on outfall's depth
  let z1 := if (sp.Node n1).ntype = NodeType.OUTFALL then max 0 (z1 - (sp.Node n1).newDepth) else z1
  let z2 := if (sp.Node n2).ntype = NodeType.OUTFALL then max 0 (z2 - (sp.Node n2).newDepth) else z2
  if y1 > FUDGE ∧ y2 > FUDGE then
    -- lines 316-352: both ends of conduit are wet
    if q < 0 then
      if z1 > 0 then
        let yN := ext.link_getYnorm j |q|
        let yC := ext.link_getYcrit j |q|
        let ycMin := min yN yC
        if y1 < ycMin then (FlowClass.UP_CRITICAL, yC, yN, 1)
        else (FlowClass.SUBCRITICAL, yC, yN, 1)
      else (FlowClass.SUBCRITICAL, yC0, yN0, 1)
    else
      if z2 > 0 then
        let yN := ext.link_getYnorm j |q|
        let yC := ext.link_getYcrit j |q|
        let ycMin := min yN yC
        let ycMax := max yN yC
        if y2 < ycMin then (FlowClass.DN_CRITICAL, yC, yN, 1)
        else if y2 < ycMax then
          (FlowClass.SUBCRITICAL, yC, yN,
            if ycMax - ycMin < FUDGE then 0 else (ycMax - y2) / (ycMax - ycMin))
        else (FlowClass.SUBCRITICAL, yC, yN, 1)
      else (FlowClass.SUBCRITICAL, yC0, yN0, 1)
  else if y1 ≤ FUDGE ∧ y2 ≤ FUDGE then
    -- line 355: no flow at either end of conduit
    (FlowClass.DRY, yC0, yN0, 1)
  else if y2 > FUDGE then
    -- lines 358-374: downstream end of pipe wet, upstream dry
    if h2 < (sp.Node n1).invertElev + link.offset1 then (FlowClass.UP_DRY, yC0, yN0, 1)
    else if z1 > 0 then
      (FlowClass.UP_CRITICAL, ext.link_getYcrit j |q|, ext.link_getYnorm j |q|, 1)
    else (FlowClass.SUBCRITICAL, yC0, yN0, 1)
  else
    -- lines 377-392: upstream end of pipe wet, downstream dry
    if h1 < (sp.Node n2).invertElev + link.offset2 then (FlowClass.DN_DRY, yC0, yN0, 1)
    else if z2 > 0 then
      (FlowClass.DN_CRITICAL, ext.link_getYcrit j |q|, ext.link_getYnorm j |q|, 1)
    else (FlowClass.SUBCRITICAL, yC0, yN0, 1)

/-- Result record of `findSurfArea`: the flow class and surface areas the C
routine stores on the link, and the final values of its in-out parameters
h1, h2, y1, y2. -/
structure SurfAreaResult where
  flowClass : FlowClass
  surfArea1 : ℚ
  surfArea2 : ℚ
  h1 : ℚ
  h2 : ℚ
  y1 : ℚ
  y2 : ℚ
deriving DecidableEq, Repr

-- dwflow.c lines 440-524: the switch over the flow class inside
-- findSurfArea, distributing conduit surface area to the end nodes and
-- possibly revising one end's depth and head.
def findSurfArea_dist (sp : SWMM_Project) (ext : Ext) (j : ℕ)
    (length h1 h2 y1 y2 : ℚ) (flowClass : FlowClass)
    (criticalDepth normalDepth fasnh : ℚ) : SurfAreaResult :=
  let link := sp.Link j
  let xsect := link.xsect
  let n1 := link.node1
  let n2 := link.node2
  let flowDepth1 := y1
  let flowDepth2 := y2
  match flowClass with
  | FlowClass.SUBCRITICAL =>
    let flowDepthMid0 := 0.5 * (flowDepth1 + flowDepth2)
    let flowDepthMid := if flowDepthMid0 < FUDGE then FUDGE else flowDepthMid0
    let width1 := getWidth ext xsect flowDepth1
    let width2 := getWidth ext xsect flowDepth2
    let widthMid := getWidth ext xsect flowDepthMid
    { flowClass := flowClass,
      surfArea1 := (width1 + widthMid) * length / 4,
      surfArea2 := (widthMid + width2) * length / 4 * fasnh,
      h1 := h1, h2 := h2, y1 := flowDepth1, y2 := flowDepth2 }
  | FlowClass.UP_CRITICAL =>
    let flowDepth1 := criticalDepth
    let flowDepth1 := if normalDepth < criticalDepth then normalDepth else flowDepth1
    let flowDepth1 := max flowDepth1 FUDGE
    let h1 := (sp.Node n1).invertElev + link.offset1 + flowDepth1
    let flowDepthMid0 := 0.5 * (flowDepth1 + flowDepth2)
    let flowDepthMid := if flowDepthMid0 < FUDGE then FUDGE else flowDepthMid0
    let width2 := getWidth ext xsect flowDepth2
    let widthMid := getWidth ext xsect flowDepthMid
    { flowClass := flowClass,
      surfArea1 := 0,
      surfArea2 := (widthMid + width2) * length * 0.5,
      h1 := h1, h2 := h2, y1 := flowDepth1, y2 := flowDepth2 }
  | FlowClass.DN_CRITICAL =>
    let flowDepth2 := criticalDepth
    let flowDepth2 := if normalDepth < criticalDepth then normalDepth else flowDepth2
    let flowDepth2 := max flowDepth2 FUDGE
    let h2 := (sp.Node n2).invertElev + link.offset2 + flowDepth2
    let width1 := getWidth ext xsect flowDepth1
    let flowDepthMid0 := 0.5 * (flowDepth1 + flowDepth2)
    let flowDepthMid := if flowDepthMid0 < FUDGE then FUDGE else flowDepthMid0
    let widthMid := getWidth ext xsect flowDepthMid
    { flowClass := flowClass,
      surfArea1 := (width1 + widthMid) * length * 0.5,
      surfArea2 := 0,
      h1 := h1, h2 := h2, y1 := flowDepth1, y2 := flowDepth2 }
  | FlowClass.UP_DRY =>
    let flowDepth1 := FUDGE
    let flowDepthMid0 := 0.5 * (flowDepth1 + flowDepth2)
    let flowDepthMid := if flowDepthMid0 < FUDGE then FUDGE else flowDepthMid0
    let width1 := getWidth ext xsect flowDepth1
    let width2 := getWidth ext xsect flowDepth2
    let widthMid := getWidth ext xsect flowDepthMid
    { flowClass := flowClass,
      surfArea1 := if link.offset1 ≤ 0 then (width1 + widthMid) * length / 4 else 0,
      surfArea2 := (widthMid + width2) * length / 4,
      h1 := h1, h2 := h2, y1 := flowDepth1, y2 := flowDepth2 }
  | FlowClass.DN_DRY =>
    let flowDepth2 := FUDGE
    let flowDepthMid0 := 0.5 * (flowDepth1 + flowDepth2)
    let flowDepthMid := if flowDepthMid0 < FUDGE then FUDGE else flowDepthMid0
    let width1 := getWidth ext xsect flowDepth1
    let width2 := getWidth ext xsect flowDepth2
    let widthMid := getWidth ext xsect flowDepthMid
    { flowClass := flowClass,
      surfArea1 := (widthMid + width1) * length / 4,
      surfArea2 := if link.offset2 ≤ 0 then (width2 + widthMid) * length / 4 else 0,
      h1 := h1, h2 := h2, y1 := flowDepth1, y2 := flowDepth2 }
  | FlowClass.DRY =>
    let surfArea1 := FUDGE * length / 2
    { flowClass := flowClass,
      surfArea1 := surfArea1,
      surfArea2 := surfArea1,
      h1 := h1, h2 := h2, y1 := flowDepth1, y2 := flowDepth2 }
  | FlowClass.SUPCRITICAL =>
    -- not produced by getFlowClass; the C switch leaves both areas 0
    { flowClass := flowClass,
      surfArea1 := 0, surfArea2 := 0,
      h1 := h1, h2 := h2, y1 := flowDepth1, y2 := flowDepth2 }

-- dwflow.c lines 398-525: assigns conduit surface area to its end nodes
-- depending on flow class; may revise one end's depth and head.
def findSurfArea (sp : SWMM_Project) (ext : Ext) (j : ℕ) (q length h1 h2 y1 y2 : ℚ) :
    SurfAreaResult :=
  let flowDepth1 := y1
  let flowDepth2 := y2
  let normalDepth := (flowDepth1 + flowDepth2) / 2
  let criticalDepth := normalDepth
  let fc := getFlowClass sp ext j q h1 h2 y1 y2 criticalDepth normalDepth
  findSurfArea_dist sp ext j length h1 h2 y1 y2 fc.1 fc.2.1 fc.2.2.1 fc.2.2.2

-- dwflow.c lines 529-547: local losses term of the momentum equation.
def findLocalLosses (sp : SWMM_Project) (j : ℕ) (a1 a2 aMid q : ℚ) : ℚ :=
  let link := sp.Link j
  let q := |q|
  let losses : ℚ := 0
  let losses := if a1 > FUDGE then losses + link.cLossInlet * (q / a1) else losses
  let losses := if a2 > FUDGE then losses + link.cLossOutlet * (q / a2) else losses
  let losses := if aMid > FUDGE then losses + link.cLossAvg * (q / aMid) else losses
  losses

-- dwflow.c lines 612-635: the trigger tests of checkNormalFlow (water
-- surface slope against conduit slope, and upstream Froude number),
-- producing the value of the local variable check.
def checkNormalFlow_check (sp : SWMM_Project) (ext : Ext) (j : ℕ) (q y1 y2 a1 : ℚ) : Bool :=
  let n1 := (sp.Link j).node1
  let n2 := (sp.Link j).node2
  let hasOutfall :=
    (sp.Node n1).ntype = NodeType.OUTFALL ∨ (sp.Node n2).ntype = NodeType.OUTFALL
  let check : Bool := decide
    ((sp.NormalFlowLtd = NormalFlowType.SLOPE ∨ sp.NormalFlowLtd = NormalFlowType.BOTH ∨
      hasOutfall) ∧ y1 < y2)
  if ¬check ∧ (sp.NormalFlowLtd = NormalFlowType.FROUDE ∨
      sp.NormalFlowLtd = NormalFlowType.BOTH) ∧ ¬hasOutfall then
    if y1 > FUDGE ∧ y2 > FUDGE then
      decide (ext.link_getFroude j (q / a1) y1 ≥ 1)
    else check
  else check

-- dwflow.c lines 599-648: checks if flow in link should be replaced by
-- normal flow; the Bool result models the C routine's assignment of
-- TRUE to Link[j].normalFlow (FALSE = left as the caller set it).
def checkNormalFlow (sp : SWMM_Project) (ext : Ext) (j : ℕ) (q y1 y2 a1 r1 : ℚ) : ℚ × Bool :=
  let k := (sp.Link j).subIndex
  let check := checkNormalFlow_check sp ext j q y1 y2 a1
  if check then
    let qNorm := (sp.Conduit k).beta * a1 * ext.rpow r1 (2 / 3)
    if qNorm < q then (qNorm, true) else (q, false)
  else (q, false)

-- dwflow.c lines 225-240: the flow limitation checks applied to a positive
-- candidate flow (inlet-controlled culvert flow, else normal-flow cap).
-- Returns the limited flow and the values of the inletControl and
-- normalFlow flags (both were just reset to FALSE at lines 226-227).
def flowLimit (sp : SWMM_Project) (ext : Ext) (j : ℕ) (isFull : Bool) (flowClass : FlowClass)
    (h1 y1 y2 a1 r1 q : ℚ) : ℚ × Bool × Bool :=
  if q > 0 then
    if (sp.Link j).xsect.culvertCode > 0 ∧ ¬isFull then
      let ci := ext.culvert_getInflow j q h1
      (ci.1, ci.2, false)
    else if y1 < (sp.Link j).xsect.yFull ∧
        (flowClass = FlowClass.SUBCRITICAL ∨ flowClass = FlowClass.SUPCRITICAL) then
      let cn := checkNormalFlow sp ext j q y1 y2 a1 r1
      (cn.1, false, cn.2)
    else (q, false, false)
  else (q, false, false)

-- dwflow.c lines 242-248: under-relaxation weighting between new and old
-- flows; no change of flow direction without first being zero.
def underRelax (steps : ℕ) (omega qLast q : ℚ) : ℚ :=
  if steps > 0 then
    let q := (1 - omega) * qLast + omega * q
    if q * qLast < 0 then 0.001 * SGN q else q
  else q

-- dwflow.c lines 250-254: user-supplied flow limit.
def applyQLimit (qLimit q : ℚ) : ℚ :=
  if qLimit > 0 ∧ |q| > qLimit then SGN q * qLimit else q

-- dwflow.c lines 259-262: do not allow flow out of a dry node
-- (d1, d2 are the end nodes' newDepth values).
def dryNodeChoke (d1 d2 q : ℚ) : ℚ :=
  let q := if q > FUDGE ∧ d1 ≤ FUDGE then FUDGE else q
  if q < -FUDGE ∧ d2 ≤ FUDGE then -FUDGE else q

/-- The local variables of `dwflow_findConduitFlow` as they stand after
dwflow.c line 142 (just before the early-out test). -/
structure DwCtx where
  k : ℕ
  n1 : ℕ
  n2 : ℕ
  barrels : ℚ
  qOld : ℚ
  qLast : ℚ
  h1 : ℚ
  h2 : ℚ
  y1 : ℚ
  y2 : ℚ
  aOld : ℚ
  length : ℚ
  flowClass : FlowClass
  surfArea1 : ℚ
  surfArea2 : ℚ
  a1 : ℚ
  a2 : ℚ
  r1 : ℚ
  yMid : ℚ
  aMid : ℚ
  rMid : ℚ
  isFull : Bool
  isClosed : Bool
deriving DecidableEq, Repr

-- dwflow.c lines 78-142: the set-up part of dwflow_findConduitFlow, from
-- the isClosed adjustment through the isFull test.
def dwflow_setup (sp : SWMM_Project) (ext : Ext) (j : ℕ) : DwCtx :=
  let link := sp.Link j
  let xsect := link.xsect
  let isClosed := decide (link.setting = 0)
  let k := link.subIndex
  let barrels := (sp.Conduit k).barrels
  let qOld := link.oldFlow / barrels
  let qLast := (sp.Conduit k).q1
  let n1 := link.node1
  let n2 := link.node2
  let z1 := (sp.Node n1).invertElev + link.offset1
  let z2 := (sp.Node n2).invertElev + link.offset2
  let h1 := max ((sp.Node n1).newDepth + (sp.Node n1).invertElev) z1
  let h2 := max ((sp.Node n2).newDepth + (sp.Node n2).invertElev) z2
  let y1 := min (max (h1 - z1) FUDGE) xsect.yFull
  let y2 := min (max (h2 - z2) FUDGE) xsect.yFull
  let aOld := max (sp.Conduit k).a2 FUDGE
  let length := (sp.Conduit k).modLength
  let sr := findSurfArea sp ext j qLast length h1 h2 y1 y2
  let h1 := sr.h1
  let h2 := sr.h2
  let y1 := sr.y1
  let y2 := sr.y2
  let a1 := getArea ext xsect y1
  let a2 := getArea ext xsect y2
  let r1 := getHydRad ext xsect y1
  let yMid := 0.5 * (y1 + y2)
  let aMid := getArea ext xsect yMid
  let rMid := getHydRad ext xsect yMid
  let isFull := decide (y1 ≥ xsect.yFull ∧ y2 ≥ xsect.yFull)
  { k := k, n1 := n1, n2 := n2, barrels := barrels, qOld := qOld, qLast := qLast,
    h1 := h1, h2 := h2, y1 := y1, y2 := y2, aOld := aOld, length := length,
    flowClass := sr.flowClass, surfArea1 := sr.surfArea1, surfArea2 := sr.surfArea2,
    a1 := a1, a2 := a2, r1 := r1, yMid := yMid, aMid := aMid, rMid := rMid,
    isFull := isFull, isClosed := isClosed }

-- dwflow.c lines 144-160: set new flow to zero if conduit is dry or the
-- flap gate is closed, and return.
def dwflow_earlyOut (sp : SWMM_Project) (ext : Ext) (j : ℕ) (dt : ℚ) (c : DwCtx) :
    TLink × TConduit :=
  let link := sp.Link j
  let link := { link with flowClass := c.flowClass,
                          surfArea1 := c.surfArea1, surfArea2 := c.surfArea2 }
  let condA1 := 0.5 * (c.a1 + c.a2)
  ({ link with
      dqdh := GRAVITY * dt * c.aMid / c.length * c.barrels,
      froude := 0,
      newDepth := min c.yMid link.xsect.yFull,
      newVolume := condA1 * ext.link_getLength j * c.barrels,
      newFlow := 0 },
   { sp.Conduit c.k with a1 := condA1, q1 := 0, q2 := 0 })

/-- The values computed by dwflow.c lines 162-216 that do not involve the
friction slope term: velocity, Froude number, the (possibly promoted)
flow class, weighted area and radius, and the momentum terms dq2..dq6. -/
structure DwTerms where
  v : ℚ
  froude : ℚ
  flowClass2 : FlowClass
  aWtd : ℚ
  rWtd : ℚ
  dq2 : ℚ
  dq3 : ℚ
  dq4 : ℚ
  dq5 : ℚ
  dq6 : ℚ
deriving DecidableEq, Repr

-- dwflow.c lines 162-216 except the friction slope term dq1.
def dwflow_terms (sp : SWMM_Project) (ext : Ext) (j : ℕ) (dt : ℚ) (c : DwCtx) : DwTerms :=
  let xsect := (sp.Link j).xsect
  let v0 := c.qLast / c.aMid
  let v := if |v0| > MAXVELOCITY then MAXVELOCITY * SGN c.qLast else v0
  let froude := ext.link_getFroude j v c.yMid
  let flowClass2 := if c.flowClass = FlowClass.SUBCRITICAL ∧ froude > 1
                    then FlowClass.SUPCRITICAL else c.flowClass
  let sigma : ℚ := if froude ≤ 0.5 then 1 else if froude ≥ 1 then 0 else 2 * (1 - froude)
  let rho : ℚ := if ¬c.isFull ∧ c.qLast > 0 ∧ c.h1 ≥ c.h2 then sigma else 1
  let aWtd := c.a1 + (c.aMid - c.a1) * rho
  let rWtd := c.r1 + (c.rMid - c.r1) * rho
  let sigma : ℚ := if sp.InertDamping = DampingMode.NO_DAMPING then 1
                   else if sp.InertDamping = DampingMode.FULL_DAMPING then 0 else sigma
  let sigma : ℚ := if c.isFull ∧ ¬ ext.xsect_isOpen xsect.shape then 0 else sigma
  let dq2 := dt * GRAVITY * aWtd * (c.h2 - c.h1) / c.length
  let dq3 := if sigma > 0 then 2 * v * (c.aMid - c.aOld) * sigma else 0
  let dq4 := if sigma > 0 then dt * v * v * (c.a2 - c.a1) / c.length * sigma else 0
  let dq5 := if (sp.Conduit c.k).hasLosses
             then findLocalLosses sp j c.a1 c.a2 c.aMid c.qLast / 2 / c.length * dt else 0
  let dq6 := ext.link_getLossRate j c.qOld dt * 2.5 * dt * v / ext.link_getLength j
  { v := v, froude := froude, flowClass2 := flowClass2, aWtd := aWtd, rWtd := rWtd,
    dq2 := dq2, dq3 := dq3, dq4 := dq4, dq5 := dq5, dq6 := dq6 }

-- dwflow.c lines 190-194: the friction slope term.
def dwflow_dq1 (sp : SWMM_Project) (ext : Ext) (j : ℕ) (dt : ℚ) (c : DwCtx) (t : DwTerms) : ℚ :=
  if (sp.Link j).xsect.shape = FORCE_MAIN ∧ c.isFull
  then dt * ext.forcemain_getFricSlope j |t.v| c.rMid
  else dt * (sp.Conduit c.k).roughFactor / ext.rpow t.rWtd 1.33333 * |t.v|

-- dwflow.c lines 242-262: under-relaxation, the user flow limit, the flap
-- gate check and the dry-node cutoff, applied in that order to the flow
-- left by the limitation checks of lines 225-240.
def dwflow_relaxFlow (sp : SWMM_Project) (ext : Ext) (j steps : ℕ) (omega : ℚ) (c : DwCtx)
    (q : ℚ) : ℚ :=
  let q := underRelax steps omega c.qLast q
  let q := applyQLimit (sp.Link j).qLimit q
  let q := if ext.link_setFlapGate j c.n1 c.n2 q then 0 else q
  dryNodeChoke (sp.Node c.n1).newDepth (sp.Node c.n2).newDepth q

-- dwflow.c lines 162-273: the main path of dwflow_findConduitFlow
-- (everything after the early-out test).
def dwflow_main (sp : SWMM_Project) (ext : Ext) (j steps : ℕ) (omega dt : ℚ) (c : DwCtx) :
    TLink × TConduit :=
  let link := sp.Link j
  let xsect := link.xsect
  let t := dwflow_terms sp ext j dt c
  let dq1 := dwflow_dq1 sp ext j dt c t
  let denom := 1 + dq1 + t.dq5
  let q := (c.qOld - t.dq2 + t.dq3 + t.dq4 - t.dq6) / denom
  let dqdh := 1 / denom * GRAVITY * dt * t.aWtd / c.length * c.barrels
  let lim := flowLimit sp ext j c.isFull t.flowClass2 c.h1 c.y1 c.y2 c.a1 c.r1 q
  let q := dwflow_relaxFlow sp ext j steps omega c lim.1
  let link := { link with flowClass := c.flowClass,
                          surfArea1 := c.surfArea1, surfArea2 := c.surfArea2 }
  ({ link with
      froude := t.froude,
      flowClass := t.flowClass2,
      dqdh := dqdh,
      inletControl := lim.2.1,
      normalFlow := lim.2.2,
      newDepth := min c.yMid xsect.yFull,
      newVolume := min ((c.a1 + c.a2) / 2) xsect.aFull * ext.link_getLength j * c.barrels,
      newFlow := q * c.barrels },
   { sp.Conduit c.k with
      a1 := c.aMid, q1 := q, q2 := q,
      fullState := ext.link_getFullState c.a1 c.a2 xsect.aFull })

-- dwflow.c lines 46-274: the full conduit momentum update. Returns the
-- updated Link[j] and Conduit[k] records, the only project state the C
-- routine writes.
def dwflow_findConduitFlow (sp : SWMM_Project) (ext : Ext) (j steps : ℕ) (omega dt : ℚ) :
    TLink × TConduit :=
  let c := dwflow_setup sp ext j
  if c.flowClass = FlowClass.DRY ∨ c.flowClass = FlowClass.UP_DRY ∨
     c.flowClass = FlowClass.DN_DRY ∨ c.isClosed ∨ c.aMid ≤ FUDGE
  then dwflow_earlyOut sp ext j dt c
  else dwflow_main sp ext j steps omega dt c

-- dwflow.c lines 278-394 once more, now as a state transformer: the same
-- routine with the project handle threaded explicitly through the control
-- flow. Every statement of the C routine either binds a local or returns;
-- none assigns to any field reached from *sp, so each return site passes
-- the incoming project back unchanged.
def getFlowClassSt (sp : SWMM_Project) (ext : Ext) (j : ℕ) (q h1 h2 y1 y2 yC0 yN0 : ℚ) :
    SWMM_Project × (FlowClass × ℚ × ℚ × ℚ) :=
  let link := sp.Link j
  let n1 := link.node1
  let n2 := link.node2
  let z1 := link.offset1
  let z2 := link.offset2
  let z1 := if (sp.Node n1).ntype = NodeType.OUTFALL then max 0 (z1 - (sp.Node n1).newDepth) else z1
  let z2 := if (sp.Node n2).ntype = NodeType.OUTFALL then max 0 (z2 - (sp.Node n2).newDepth) else z2
  if y1 > FUDGE ∧ y2 > FUDGE then
    if q < 0 then
      if z1 > 0 then
        let yN := ext.link_getYnorm j |q|
        let yC := ext.link_getYcrit j |q|
        let ycMin := min yN yC
        if y1 < ycMin then (sp, (FlowClass.UP_CRITICAL, yC, yN, 1))
        else (sp, (FlowClass.SUBCRITICAL, yC, yN, 1))
      else (sp, (FlowClass.SUBCRITICAL, yC0, yN0, 1))
    else
      if z2 > 0 then
        let yN := ext.link_getYnorm j |q|
        let yC := ext.link_getYcrit j |q|
        let ycMin := min yN yC
        let ycMax := max yN yC
        if y2 < ycMin then (sp, (FlowClass.DN_CRITICAL, yC, yN, 1))
        else if y2 < ycMax then
          (sp, (FlowClass.SUBCRITICAL, yC, yN,
            if ycMax - ycMin < FUDGE then 0 else (ycMax - y2) / (ycMax - ycMin)))
        else (sp, (FlowClass.SUBCRITICAL, yC, yN, 1))
      else (sp, (FlowClass.SUBCRITICAL, yC0, yN0, 1))
  else if y1 ≤ FUDGE ∧ y2 ≤ FUDGE then (sp, (FlowClass.DRY, yC0, yN0, 1))
  else if y2 > FUDGE then
    if h2 < (sp.Node n1).invertElev + link.offset1 then (sp, (FlowClass.UP_DRY, yC0, yN0, 1))
    else if z1 > 0 then
      (sp, (FlowClass.UP_CRITICAL, ext.link_getYcrit j |q|, ext.link_getYnorm j |q|, 1))
    else (sp, (FlowClass.SUBCRITICAL, yC0, yN0, 1))
  else
    if h1 < (sp.Node n2).invertElev + link.offset2 then (sp, (FlowClass.DN_DRY, yC0, yN0, 1))
    else if z2 > 0 then
      (sp, (FlowClass.DN_CRITICAL, ext.link_getYcrit j |q|, ext.link_getYnorm j |q|, 1))
    else (sp, (FlowClass.SUBCRITICAL, yC0, yN0, 1))

/-- The trigger condition of the normal-flow check in the words of the
spec (section 4.5): the slope trigger y1 < y2 is enabled when the global
limitation mode is SLOPE or BOTH or an endpoint node is an outfall; the
Froude trigger (upstream Froude number at least 1) is enabled when the
mode is FROUDE or BOTH, both depths exceed FUDGE, and no endpoint is an
outfall. Stated from the spec, to be compared with `checkNormalFlow`. -/
abbrev normalFlowTriggerSpec (sp : SWMM_Project) (ext : Ext) (j : ℕ) (q y1 y2 a1 : ℚ) : Prop :=
  ((sp.NormalFlowLtd = NormalFlowType.SLOPE ∨ sp.NormalFlowLtd = NormalFlowType.BOTH ∨
    (sp.Node (sp.Link j).node1).ntype = NodeType.OUTFALL ∨
    (sp.Node (sp.Link j).node2).ntype = NodeType.OUTFALL) ∧ y1 < y2) ∨
  ((sp.NormalFlowLtd = NormalFlowType.FROUDE ∨ sp.NormalFlowLtd = NormalFlowType.BOTH) ∧
    ¬((sp.Node (sp.Link j).node1).ntype = NodeType.OUTFALL ∨
      (sp.Node (sp.Link j).node2).ntype = NodeType.OUTFALL) ∧
    y1 > FUDGE ∧ y2 > FUDGE ∧ ext.link_getFroude j (q / a1) y1 ≥ 1)

end SWMM

namespace Mathexpr

/-- The NUL character: C strings are NUL-terminated, and the scanner's
guarded reads past the end of the formula see this value. -/
def NUL : Char := Char.ofNat 0

/-- Read character i of the formula; out-of-range reads (guarded in the C
code by the Pos/Len comparisons, or hitting the terminator) yield NUL. -/
def charAt (s : List Char) (i : ℤ) : Char :=
  if h : 0 ≤ i ∧ i.toNat < s.length then s.get ⟨i.toNat, h.2⟩ else NUL

-- mathexpr.c lines 767-772
def isDigit (c : Char) : Bool :=
  if '1' ≤ c ∧ c ≤ '9' then true
  else if c = '0' then true
  else false

-- mathexpr.c lines 776-782
def isLetter (c : Char) : Bool :=
  if 'a' ≤ c ∧ c ≤ 'z' then true
  else if 'A' ≤ c ∧ c ≤ 'Z' then true
  else if c = '_' then true
  else false

-- mathexpr.c lines 746-763: case insensitive comparison of two strings.
def sametext (s1 s2 : List Char) : Bool :=
  match s1, s2 with
  | c1 :: t1, c2 :: t2 => if c1.toUpper = c2.toUpper then sametext t1 t2 else false
  | [], [] => true
  | _, _ => false

-- mathexpr.c lines 718-721: math function names.
def MathFunc : List (List Char) :=
  ["COS".toList, "SIN".toList, "TAN".toList, "COT".toList, "ABS".toList, "SGN".toList,
   "SQRT".toList, "LOG".toList, "EXP".toList, "ASIN".toList, "ACOS".toList, "ATAN".toList,
   "ACOT".toList, "SINH".toList, "COSH".toList, "TANH".toList, "COTH".toList, "LOG10".toList,
   "STEP".toList]

/-- The file-scope shared parse state `TMathexprShared` (fields S, Len,
Pos, CurLex, PrevLex, Err, Bc, Fvalue, Ivar, Token). -/
structure MState where
  s : List Char
  len : ℤ
  pos : ℤ
  curLex : ℕ
  prevLex : ℕ
  err : ℕ
  bc : ℤ
  fvalue : ℚ
  ivar : ℤ
  token : List Char
deriving DecidableEq, Repr

-- the while loop of getToken (mathexpr.c lines 793-799); the fuel
-- argument strictly bounds the number of iterations, which the C loop
-- bounds by the formula length.
def getTokenLoop (s : List Char) (len : ℤ) : ℕ → ℤ → List Char → ℤ × List Char
  | 0, pos, tok => (pos, tok)
  | fuel + 1, pos, tok =>
    if pos ≤ len ∧ (isLetter (charAt s pos) ∨ isDigit (charAt s pos)) then
      getTokenLoop s len fuel (pos + 1) (tok ++ [charAt s pos])
    else (pos, tok)

-- mathexpr.c lines 786-801
def getToken (st : MState) : MState :=
  let r := getTokenLoop st.s st.len (st.s.length + 2) st.pos []
  { st with pos := r.1 - 1, token := r.2 }

-- the lookup loop of getMathFunc (mathexpr.c lines 811-815)
def getMathFuncAux (tok : List Char) : List (List Char) → ℕ → ℕ
  | [], _ => 0
  | f :: rest, i => if sametext f tok then i + 10 else getMathFuncAux tok rest (i + 1)

-- mathexpr.c lines 805-817
def getMathFunc (st : MState) : ℕ := getMathFuncAux st.token MathFunc 0

-- mathexpr.c lines 821-829; gv models the getVariableIndex callback
-- (none = NULL).
def getVariable (gv : Option (List Char → ℤ)) (st : MState) : ℕ × MState :=
  match gv with
  | none => (0, st)
  | some f =>
    let st := { st with ivar := f st.token }
    if st.ivar ≥ 0 then (8, st) else (0, st)

-- the digit-collecting while loops of getNumber (mathexpr.c lines
-- 843-848, 857-862, 882-887), fuel-bounded as for getTokenLoop.
def scanDigits (s : List Char) (len : ℤ) : ℕ → ℤ → List Char → ℤ × List Char
  | 0, pos, acc => (pos, acc)
  | fuel + 1, pos, acc =>
    if pos < len ∧ isDigit (charAt s pos) then
      scanDigits s len fuel (pos + 1) (acc ++ [charAt s pos])
    else (pos, acc)

-- digit-string value, used by the model of atof below
def digitsToNat (acc : ℕ) : List Char → ℕ
  | [] => acc
  | c :: t => digitsToNat (acc * 10 + (c.toNat - 48)) t

/-- Modelled from the spec: the C library function `atof`, which getNumber
applies to the literal text it accumulated (digits, optional '.' and
fraction digits, optional 'E', sign and exponent digits). atof itself is
not among the sources; this model gives the exact decimal value. -/
def atofQ (cs : List Char) : ℚ :=
  let ip := cs.takeWhile isDigit
  let rest := cs.dropWhile isDigit
  let fp := if rest.head? = some '.' then (rest.drop 1).takeWhile isDigit else []
  let rest2 := if rest.head? = some '.' then (rest.drop 1).dropWhile isDigit else rest
  let mant : ℚ := (digitsToNat 0 ip : ℚ) + (digitsToNat 0 fp : ℚ) / (10 : ℚ) ^ fp.length
  match rest2 with
  | 'E' :: es =>
    let sgn : ℤ := if es.head? = some '-' then -1 else 1
    let ds := if es.head? = some '-' ∨ es.head? = some '+' then es.drop 1 else es
    mant * (10 : ℚ) ^ (sgn * (digitsToNat 0 ds : ℤ))
  | _ => mant

-- mathexpr.c lines 833-894; returns the parsed value and the state after
-- the final Pos-- . The errflag variable is local to the C function: when
-- it is set the function returns 0 and no error is recorded in the
-- shared state.
def getNumber (st : MState) : ℚ × MState :=
  let r := scanDigits st.s st.len (st.s.length + 2) st.pos []
  let res : ℤ × List Char × Bool :=
    if r.1 < st.len then
      let r2 :=
        if charAt st.s r.1 = '.' then
          scanDigits st.s st.len (st.s.length + 2) (r.1 + 1) (r.2 ++ ['.'])
        else r
      if r2.1 < st.len ∧ (charAt st.s r2.1 = 'e' ∨ charAt st.s r2.1 = 'E') then
        let sNumber := r2.2 ++ ['E']
        let pos := r2.1 + 1
        if pos ≥ st.len then (pos, sNumber, true)
        else
          let r3 := if charAt st.s pos = '-' ∨ charAt st.s pos = '+'
                    then (pos + 1, sNumber ++ [charAt st.s pos]) else (pos, sNumber)
          if r3.1 ≥ st.len ∨ ¬ isDigit (charAt st.s r3.1) then (r3.1, r3.2, true)
          else
            let r4 := scanDigits st.s st.len (st.s.length + 2) r3.1 r3.2
            (r4.1, r4.2, false)
      else (r2.1, r2.2, false)
    else (r.1, r.2, false)
  (if res.2.2 then 0 else atofQ res.2.1, { st with pos := res.1 - 1 })

-- mathexpr.c lines 898-925
def getOperand (st : MState) : ℕ × MState :=
  let c := charAt st.s st.pos
  if c = '(' then (1, st)
  else if c = ')' then (2, st)
  else if c = '+' then (3, st)
  else if c = '-' then
    if st.pos < st.len - 1 ∧ isDigit (charAt st.s (st.pos + 1)) ∧
        (st.curLex = 0 ∨ st.curLex = 1) then
      let st := { st with pos := st.pos + 1 }
      let r := getNumber st
      (7, { r.2 with fvalue := -r.1 })
    else (4, st)
  else if c = '*' then (5, st)
  else if c = '/' then (6, st)
  else if c = '^' then (31, st)
  else (0, st)

-- the space-skipping loop of getLex (mathexpr.c line 936)
def skipSpaces (s : List Char) (len : ℤ) : ℕ → ℤ → ℤ
  | 0, pos => pos
  | fuel + 1, pos =>
    if pos < len ∧ charAt s pos = ' ' then skipSpaces s len fuel (pos + 1) else pos

-- mathexpr.c lines 929-961
def getLex (gv : Option (List Char → ℤ)) (st : MState) : ℕ × MState :=
  let st := { st with pos := skipSpaces st.s st.len (st.s.length + 2) st.pos }
  if st.pos ≥ st.len then (0, st)
  else
    let r := getOperand st
    let r2 : ℕ × MState :=
      if r.1 = 0 then
        if isLetter (charAt r.2.s r.2.pos) then
          let st := getToken r.2
          let n2 := getMathFunc st
          if n2 = 0 then getVariable gv st else (n2, st)
        else if isDigit (charAt r.2.s r.2.pos) then
          let r3 := getNumber r.2
          (7, { r3.2 with fvalue := r3.1 })
        else (0, r.2)
      else r
    (r2.1, { r2.2 with pos := r2.2.pos + 1, prevLex := r2.2.curLex, curLex := r2.1 })

/-- Binary tree of operator nodes (struct TreeNode of mathexpr.c); `nil`
models the NULL pointer, and `newNode`'s defaults are opcode 0, ivar -1,
fvalue 0 and NULL children. -/
inductive ExprTree where
  | nil
  | node (opcode : ℕ) (ivar : ℤ) (fvalue : ℚ) (left right : ExprTree)
deriving DecidableEq, Repr

/-- One element of the emitted postfix program (struct MathExpr). -/
structure MNode where
  opcode : ℕ
  ivar : ℤ
  fvalue : ℚ
deriving DecidableEq, Repr

end Mathexpr

namespace Mathexpr

-- mathexpr.c lines 986-1161: the recursive-descent parser. The C
-- recursion consumes input as it descends; the fuel argument (strictly
-- decreasing across the mutual calls, and over-provisioned by the caller
-- mathexpr_create) makes the recursion structural. Exhausted fuel is
-- unreachable for real inputs and is mapped to an error state.
mutual

-- mathexpr.c lines 986-1075 up to the exponentiation loop
def getSingleOp (gv : Option (List Char → ℤ)) :
    ℕ → ℕ → MState → ExprTree × ℕ × MState
  | 0, lex, st => (ExprTree.nil, lex, { st with err := 1 })
  | fuel + 1, lex, st =>
    if lex = 1 then
      -- open parenthesis, so continue to grow the tree
      let st := { st with bc := st.bc + 1 }
      let r := getTree gv fuel st
      expLoop gv fuel r.1 (getLex gv r.2)
    else if lex < 7 ∨ lex = 9 ∨ lex > 30 then
      -- error if not a singleton operand
      (ExprTree.nil, lex, { st with err := 1 })
    else if lex = 7 ∨ lex = 8 then
      -- simple number or variable name
      let left := ExprTree.node lex (if lex = 8 then st.ivar else -1)
                    (if lex = 7 then st.fvalue else 0) ExprTree.nil ExprTree.nil
      expLoop gv fuel left (getLex gv st)
    else
      -- function, which must have a left parenthesis after it
      let r := getLex gv st
      if r.1 ≠ 1 then (ExprTree.nil, r.1, { r.2 with err := 1 })
      else
        let st := { r.2 with bc := r.2.bc + 1 }
        let rt := getTree gv fuel st
        expLoop gv fuel (ExprTree.node lex (-1) 0 rt.1 ExprTree.nil) (getLex gv rt.2)

-- the exponentiation while loop, mathexpr.c lines 1041-1073
def expLoop (gv : Option (List Char → ℤ)) :
    ℕ → ExprTree → ℕ × MState → ExprTree × ℕ × MState
  | 0, left, ls => (left, ls.1, { ls.2 with err := 1 })
  | fuel + 1, left, ls =>
    if ls.1 = 31 then
      let r := getLex gv ls.2
      let br := if r.1 = 1 then (true, getLex gv r.2) else (false, r)
      if br.2.1 ≠ 7 then (ExprTree.nil, br.2.1, { br.2.2 with err := 1 })
      else
        let st := br.2.2
        let nodeT := ExprTree.node 31 (-1) 0 left
                       (ExprTree.node 7 (-1) st.fvalue ExprTree.nil ExprTree.nil)
        if br.1 then
          let r2 := getLex gv st
          if r2.1 ≠ 2 then (ExprTree.nil, r2.1, { r2.2 with err := 1 })
          else expLoop gv fuel nodeT (getLex gv r2.2)
        else expLoop gv fuel nodeT (getLex gv st)
    else (left, ls.1, ls.2)

-- mathexpr.c lines 1079-1122 up to the product loop
def getOp (gv : Option (List Char → ℤ)) : ℕ → MState → ExprTree × ℕ × MState
  | 0, st => (ExprTree.nil, 0, { st with err := 1 })
  | fuel + 1, st =>
    let r := getLex gv st
    let pre : Bool × ℕ × MState :=
      if r.2.prevLex = 0 ∨ r.2.prevLex = 1 then
        if r.1 = 4 then
          let r2 := getLex gv r.2
          (true, r2.1, r2.2)
        else if r.1 = 3 then
          let r2 := getLex gv r.2
          (false, r2.1, r2.2)
        else (false, r.1, r.2)
      else (false, r.1, r.2)
    let rs := getSingleOp gv fuel pre.2.1 pre.2.2
    let rm := mulLoop gv fuel rs.1 rs.2.1 rs.2.2
    if pre.1 then
      if rm.2.2.err ≠ 0 then (ExprTree.nil, rm.2.1, rm.2.2)
      else (ExprTree.node 9 (-1) 0 rm.1 ExprTree.nil, rm.2.1, rm.2.2)
    else rm

-- the product/quotient while loop, mathexpr.c lines 1100-1111
def mulLoop (gv : Option (List Char → ℤ)) :
    ℕ → ExprTree → ℕ → MState → ExprTree × ℕ × MState
  | 0, left, lex, st => (left, lex, { st with err := 1 })
  | fuel + 1, left, lex, st =>
    if lex = 5 ∨ lex = 6 then
      let r := getLex gv st
      let rs := getSingleOp gv fuel r.1 r.2
      if rs.2.2.err ≠ 0 then (ExprTree.nil, rs.2.1, rs.2.2)
      else mulLoop gv fuel (ExprTree.node lex (-1) 0 left rs.1) rs.2.1 rs.2.2
    else (left, lex, st)

-- mathexpr.c lines 1126-1136
def getTree (gv : Option (List Char → ℤ)) : ℕ → MState → ExprTree × MState
  | 0, st => (ExprTree.nil, { st with err := 1 })
  | fuel + 1, st =>
    let r := getOp gv fuel st
    treeLoop gv fuel r.1 r.2.1 r.2.2

-- the sum/difference for loop, mathexpr.c lines 1137-1159
def treeLoop (gv : Option (List Char → ℤ)) :
    ℕ → ExprTree → ℕ → MState → ExprTree × MState
  | 0, left, _, st => (left, { st with err := 1 })
  | fuel + 1, left, lex, st =>
    if lex = 0 ∨ lex = 2 then
      (left, if lex = 2 then { st with bc := st.bc - 1 } else st)
    else if lex ≠ 3 ∧ lex ≠ 4 then
      (left, { st with err := 1 })
    else
      let r := getOp gv fuel st
      if r.2.2.err ≠ 0 then (left, r.2.2)
      else treeLoop gv fuel (ExprTree.node lex (-1) 0 left r.1) r.2.1 r.2.2

end

-- mathexpr.c lines 1165-1183: post-order traversal of the binary tree,
-- emitting the postfix program in left-right-root order (the C code
-- builds a doubly linked list and mathexpr_create then rewinds to its
-- head; the resulting forward order is this list).
def traverseTree : ExprTree → List MNode
  | ExprTree.nil => []
  | ExprTree.node op iv fv l r =>
    traverseTree l ++ traverseTree r ++ [{ opcode := op, ivar := iv, fvalue := fv }]

-- mathexpr.c lines 1420-1450: build a formula into a postfix program;
-- none models the NULL result (no program).
def mathexpr_create (gv : Option (List Char → ℤ)) (formula : List Char) : Option (List MNode) :=
  let st : MState := {
    s := formula, len := formula.length, pos := 0, curLex := 0, prevLex := 0,
    err := 0, bc := 0, fvalue := 0, ivar := -1, token := [] }
  let r := getTree gv (4 * (formula.length + 2)) st
  if r.2.bc = 0 ∧ r.2.err = 0 then some (traverseTree r.1) else none

/-- The C math library functions used by mathexpr_eval (not among the
sources), as parameters of the model. Values are doubles modelled as
`Option ℚ` with `none` playing NaN; each field maps a non-NaN argument to
its result (`none` when the C function returns NaN, e.g. log of a
negative number). -/
structure Prims where
  cos : ℚ → Option ℚ
  sin : ℚ → Option ℚ
  tan : ℚ → Option ℚ
  sqrt : ℚ → Option ℚ
  log : ℚ → Option ℚ
  exp : ℚ → Option ℚ
  asin : ℚ → Option ℚ
  acos : ℚ → Option ℚ
  atan : ℚ → Option ℚ
  log10 : ℚ → Option ℚ

-- binary double arithmetic: NaN operands propagate
def fbin (f : ℚ → ℚ → ℚ) : Option ℚ → Option ℚ → Option ℚ
  | some a, some b => some (f a b)
  | _, _ => none

-- double division; a zero divisor produces an infinite or NaN value in C,
-- both modelled as the non-numeric value here (no claim distinguishes them)
def fdiv : Option ℚ → Option ℚ → Option ℚ
  | some a, some b => if b = 0 then none else some (a / b)
  | _, _ => none

-- apply a math library function: NaN argument propagates to NaN result
def fapp (f : ℚ → Option ℚ) : Option ℚ → Option ℚ
  | some a => f a
  | none => none

-- mathexpr.c lines 1216-1398: the effect of one postfix opcode on the
-- value stack (list head = ExprStack[stackindex]). The C comparisons in
-- the guards are false on NaN, which decides each `none` case below
-- (e.g. step(NaN) = 1 because NaN <= 0 is false; sgn(NaN) = 0 because
-- both its comparisons are false). A binary opcode on an underflowed
-- stack reads past the array in C (undefined behaviour, unreachable for
-- parser-produced programs); here it leaves the stack unchanged, as does
-- an unknown opcode (no matching case in the C switch).
def evalNode (pr : Prims) (gvv : Option (ℤ → ℚ)) (nd : MNode)
    (stk : List (Option ℚ)) : List (Option ℚ) :=
  if nd.opcode = 3 then
    match stk with
    | r1 :: r2 :: rest => fbin (· + ·) r2 r1 :: rest
    | _ => stk
  else if nd.opcode = 4 then
    match stk with
    | r1 :: r2 :: rest => fbin (· - ·) r2 r1 :: rest
    | _ => stk
  else if nd.opcode = 5 then
    match stk with
    | r1 :: r2 :: rest => fbin (· * ·) r2 r1 :: rest
    | _ => stk
  else if nd.opcode = 6 then
    match stk with
    | r1 :: r2 :: rest => fdiv r2 r1 :: rest
    | _ => stk
  else if nd.opcode = 7 then
    some nd.fvalue :: stk
  else if nd.opcode = 8 then
    (match gvv with
     | some f => some (f nd.ivar)
     | none => some 0) :: stk
  else if nd.opcode = 9 then
    match stk with
    | r1 :: rest =>
      (match r1 with
       | some a => some (-a)
       | none => none) :: rest
    | _ => stk
  else if nd.opcode = 10 then
    match stk with
    | r1 :: rest => fapp pr.cos r1 :: rest
    | _ => stk
  else if nd.opcode = 11 then
    match stk with
    | r1 :: rest => fapp pr.sin r1 :: rest
    | _ => stk
  else if nd.opcode = 12 then
    match stk with
    | r1 :: rest => fapp pr.tan r1 :: rest
    | _ => stk
  else if nd.opcode = 13 then
    -- cot: r1 == 0 gives 0, else 1/tan(r1)
    match stk with
    | r1 :: rest =>
      (match r1 with
       | some a => if a = 0 then some 0 else fdiv (some 1) (pr.tan a)
       | none => none) :: rest
    | _ => stk
  else if nd.opcode = 14 then
    match stk with
    | r1 :: rest =>
      (match r1 with
       | some a => some |a|
       | none => none) :: rest
    | _ => stk
  else if nd.opcode = 15 then
    match stk with
    | r1 :: rest =>
      (match r1 with
       | some a => if a < 0 then some (-1) else if a > 0 then some 1 else some 0
       | none => some 0) :: rest
    | _ => stk
  else if nd.opcode = 16 then
    -- sqrt: negative gives 0
    match stk with
    | r1 :: rest =>
      (match r1 with
       | some a => if a < 0 then some 0 else pr.sqrt a
       | none => none) :: rest
    | _ => stk
  else if nd.opcode = 17 then
    -- log: non-positive gives 0
    match stk with
    | r1 :: rest =>
      (match r1 with
       | some a => if a ≤ 0 then some 0 else pr.log a
       | none => none) :: rest
    | _ => stk
  else if nd.opcode = 18 then
    match stk with
    | r1 :: rest => fapp pr.exp r1 :: rest
    | _ => stk
  else if nd.opcode = 19 then
    match stk with
    | r1 :: rest => fapp pr.asin r1 :: rest
    | _ => stk
  else if nd.opcode = 20 then
    match stk with
    | r1 :: rest => fapp pr.acos r1 :: rest
    | _ => stk
  else if nd.opcode = 21 then
    match stk with
    | r1 :: rest => fapp pr.atan r1 :: rest
    | _ => stk
  else if nd.opcode = 22 then
    -- acot: the double literal pi/2 minus atan(r1)
    match stk with
    | r1 :: rest => fbin (· - ·) (some 1.57079632679489661923) (fapp pr.atan r1) :: rest
    | _ => stk
  else if nd.opcode = 23 then
    match stk with
    | r1 :: rest =>
      (match r1 with
       | some a => fdiv (fbin (· - ·) (pr.exp a) (pr.exp (-a))) (some 2)
       | none => none) :: rest
    | _ => stk
  else if nd.opcode = 24 then
    match stk with
    | r1 :: rest =>
      (match r1 with
       | some a => fdiv (fbin (· + ·) (pr.exp a) (pr.exp (-a))) (some 2)
       | none => none) :: rest
    | _ => stk
  else if nd.opcode = 25 then
    match stk with
    | r1 :: rest =>
      (match r1 with
       | some a => fdiv (fbin (· - ·) (pr.exp a) (pr.exp (-a)))
                        (fbin (· + ·) (pr.exp a) (pr.exp (-a)))
       | none => none) :: rest
    | _ => stk
  else if nd.opcode = 26 then
    match stk with
    | r1 :: rest =>
      (match r1 with
       | some a => fdiv (fbin (· + ·) (pr.exp a) (pr.exp (-a)))
                        (fbin (· - ·) (pr.exp a) (pr.exp (-a)))
       | none => none) :: rest
    | _ => stk
  else if nd.opcode = 27 then
    -- log10: only an exactly zero argument is guarded
    match stk with
    | r1 :: rest =>
      (match r1 with
       | some a => if a = 0 then some 0 else pr.log10 a
       | none => none) :: rest
    | _ => stk
  else if nd.opcode = 28 then
    -- step
    match stk with
    | r1 :: rest =>
      (match r1 with
       | some a => if a ≤ 0 then some 0 else some 1
       | none => some 1) :: rest
    | _ => stk
  else if nd.opcode = 31 then
    -- power: non-positive base gives 0, else exp(r1*log(r2))
    match stk with
    | r1 :: r2 :: rest =>
      (match r2 with
       | some b =>
         if b ≤ 0 then some 0
         else
           match fbin (· * ·) r1 (pr.log b) with
           | some m => pr.exp m
           | none => none
       | none => none) :: rest
    | _ => stk
  else stk

-- mathexpr.c lines 1202-1405: evaluate a postfix program on a stack whose
-- bottom slot starts at 0.0; the final result, ExprStack[stackindex], is
-- coerced from NaN to 0 (line 1402).
def mathexpr_eval (pr : Prims) (gvv : Option (ℤ → ℚ)) (expr : List MNode) : ℚ :=
  let final := expr.foldl (fun stk nd => evalNode pr gvv nd stk) [some 0]
  match final with
  | some x :: _ => x
  | none :: _ => 0
  | [] => 0

end Mathexpr

namespace SWMM

-- Concrete records used by the witnesses and counterexamples below: a
-- one-conduit project (rectangular unit-width section: area = depth,
-- constant top width 1), with simple total stand-ins for the external
-- helpers.
def xsW : TXsect := { shape := 1, yFull := 2, aFull := 5, culvertCode := 0 }

def linkW : TLink := {
  subIndex := 0, node1 := 0, node2 := 1, offset1 := 0, offset2 := 0,
  xsect := xsW, setting := 1, oldFlow := -10, qLimit := 0,
  cLossInlet := 0, cLossOutlet := 0, cLossAvg := 0,
  flowClass := FlowClass.SUBCRITICAL, froude := 0, newDepth := 0, newVolume := 0,
  newFlow := 0, dqdh := 0, surfArea1 := 0, surfArea2 := 0,
  inletControl := false, normalFlow := false }

def nodeW : TNode := { ntype := NodeType.JUNCTION, invertElev := 0, newDepth := 1 }

def condW : TConduit := {
  barrels := 1, modLength := 100, roughFactor := 0, beta := 1, hasLosses := false,
  q1 := 1, q2 := 1, a1 := 1, a2 := 1, fullState := 0 }

def extW : Ext := {
  link_getLength := fun _ => 100,
  link_getFroude := fun _ _ _ => 0,
  link_getYnorm := fun _ _ => 1,
  link_getYcrit := fun _ _ => 1,
  link_getLossRate := fun _ _ _ => 0,
  link_setFlapGate := fun _ _ _ _ => false,
  link_getFullState := fun _ _ _ => 0,
  forcemain_getFricSlope := fun _ _ _ => 0,
  culvert_getInflow := fun _ q _ => (q, false),
  xsect_getAofY := fun _ y => y,
  xsect_getWofY := fun _ _ => 1,
  xsect_getRofY := fun _ y => y / 4,
  xsect_isOpen := fun _ => true,
  rpow := fun _ _ => 1 }

def spW : SWMM_Project := {
  Link := fun _ => linkW, Node := fun _ => nodeW, Conduit := fun _ => condW,
  InertDamping := DampingMode.SOME_DAMPING, NormalFlowLtd := NormalFlowType.BOTH }

-- both end nodes dry: the conduit classifies as DRY
def spDryW : SWMM_Project := { spW with Node := fun _ => { nodeW with newDepth := 0 } }

-- upstream node an outfall with a 1 ft offset and 1 ft of standing water
def spOutW : SWMM_Project := {
  spW with
  Link := fun _ => { linkW with offset1 := 1 },
  Node := fun i => if i = 0 then { nodeW with ntype := NodeType.OUTFALL } else nodeW }

/-- The project with every conduit's friction factor replaced by `r` and
everything else unchanged: the "second call" of the monotone-friction
comparison, whose inputs are identical to the first except for
`Conduit.roughFactor`. -/
def withRough (sp : SWMM_Project) (r : ℚ) : SWMM_Project :=
  { sp with Conduit := fun i => { sp.Conduit i with roughFactor := r } }

-- identical to spW except for a larger conduit roughness factor
def spRoughW : SWMM_Project := withRough spW 1

-- extW with a culvert helper that ignores the candidate flow, so that the
-- helper-constancy hypotheses of the friction-monotonicity statement hold
def extMW : Ext := { extW with culvert_getInflow := fun _ _ _ => (0, false) }

end SWMM

namespace Mathexpr

/-- A concrete instantiation of the C math library for the witnesses: log
and log10 return NaN (`none`) on arguments outside their domain, matching
IEEE behaviour; the remaining functions are arbitrary total stand-ins
(their values are irrelevant to the statements that use them). -/
def prW : Prims := {
  cos := fun _ => some 1, sin := fun _ => some 0, tan := fun _ => some 0,
  sqrt := fun x => some x, log := fun x => if 0 < x then some 0 else none,
  exp := fun _ => some 1, asin := fun _ => some 0, acos := fun _ => some 0,
  atan := fun _ => some 0, log10 := fun x => if 0 < x then some 0 else none }

end Mathexpr


/-! ## Theorems -/

set_option maxRecDepth 100000
set_option maxHeartbeats 1600000

namespace SWMM

set_option maxRecDepth 100000

theorem FUDGE_pos : 0 < FUDGE := by norm_num [FUDGE]

/-- C1: whenever the flow class computed by findSurfArea is DRY, UP_DRY or
DN_DRY, or the link's setting is 0, or the midpoint area aMid is at most
FUDGE, dwflow_findConduitFlow stores newFlow = 0 exactly,
Conduit.q1 = Conduit.q2 = 0, froude = 0, and
dqdh = GRAVITY * dt * aMid / length * barrels. -/
theorem dwflow_earlyOut_state (sp : SWMM_Project) (ext : Ext) (j steps : ℕ) (omega dt : ℚ)
    (h : (dwflow_setup sp ext j).flowClass = FlowClass.DRY ∨
         (dwflow_setup sp ext j).flowClass = FlowClass.UP_DRY ∨
         (dwflow_setup sp ext j).flowClass = FlowClass.DN_DRY ∨
         (sp.Link j).setting = 0 ∨
         (dwflow_setup sp ext j).aMid ≤ FUDGE) :
    (dwflow_findConduitFlow sp ext j steps omega dt).1.newFlow = 0 ∧
    (dwflow_findConduitFlow sp ext j steps omega dt).2.q1 = 0 ∧
    (dwflow_findConduitFlow sp ext j steps omega dt).2.q2 = 0 ∧
    (dwflow_findConduitFlow sp ext j steps omega dt).1.froude = 0 ∧
    (dwflow_findConduitFlow sp ext j steps omega dt).1.dqdh =
      GRAVITY * dt * (dwflow_setup sp ext j).aMid / (dwflow_setup sp ext j).length *
        (dwflow_setup sp ext j).barrels := by
  have hcond : (dwflow_setup sp ext j).flowClass = FlowClass.DRY ∨
      (dwflow_setup sp ext j).flowClass = FlowClass.UP_DRY ∨
      (dwflow_setup sp ext j).flowClass = FlowClass.DN_DRY ∨
      ((dwflow_setup sp ext j).isClosed = true) ∨
      (dwflow_setup sp ext j).aMid ≤ FUDGE := by
    rcases h with h | h | h | h | h
    · exact Or.inl h
    · exact Or.inr (Or.inl h)
    · exact Or.inr (Or.inr (Or.inl h))
    · refine Or.inr (Or.inr (Or.inr (Or.inl ?_)))
      have hi : (dwflow_setup sp ext j).isClosed = decide ((sp.Link j).setting = 0) := rfl
      rw [hi, decide_eq_true_eq]
      exact h
    · exact Or.inr (Or.inr (Or.inr (Or.inr h)))
  have hrw : dwflow_findConduitFlow sp ext j steps omega dt
      = dwflow_earlyOut sp ext j dt (dwflow_setup sp ext j) := by
    unfold dwflow_findConduitFlow
    exact if_pos hcond
  rw [hrw]
  exact ⟨rfl, rfl, rfl, rfl, rfl⟩

/-- Witness for C1 at a concrete dry conduit (both node depths 0). -/
theorem dwflow_earlyOut_state_witness :
    (dwflow_findConduitFlow spDryW extW 0 0 1 30).1.newFlow = 0 ∧
    (dwflow_findConduitFlow spDryW extW 0 0 1 30).2.q1 = 0 ∧
    (dwflow_findConduitFlow spDryW extW 0 0 1 30).2.q2 = 0 ∧
    (dwflow_findConduitFlow spDryW extW 0 0 1 30).1.froude = 0 ∧
    (dwflow_findConduitFlow spDryW extW 0 0 1 30).1.dqdh =
      GRAVITY * 30 * (dwflow_setup spDryW extW 0).aMid / (dwflow_setup spDryW extW 0).length *
        (dwflow_setup spDryW extW 0).barrels :=
  dwflow_earlyOut_state spDryW extW 0 0 1 30 (Or.inl (by with_unfolding_all decide))

/-- C3 fails as stated: the UP_DRY test at dwflow.c line 362 compares h2
against node1.invertElev + Link.offset1, the raw upstream offset, not the
outfall-adjusted offset z1 of lines 303-309. With an upstream outfall
node (invert 0, water depth 1) and offset1 = 1 the adjusted offset is 0;
at h2 = 1/2 the classifier nevertheless returns UP_DRY, although
h2 ≥ node1.invert + z1 with the adjusted z1 the claim specifies. -/
theorem getFlowClass_upDry_cex :
    (getFlowClass spOutW extW 0 0 0 (1/2) FUDGE 1 0 0).1 = FlowClass.UP_DRY ∧
    ¬((1 : ℚ)/2 < (spOutW.Node 0).invertElev +
        max 0 ((spOutW.Link 0).offset1 - (spOutW.Node 0).newDepth)) := by
  constructor
  · with_unfolding_all decide
  · with_unfolding_all decide

/-- C3 amended: for a conduit whose upstream end is dry and downstream
end is wet (y1 ≤ FUDGE < y2), the classifier returns UP_DRY exactly when
h2 < node1.invertElev + link.offset1, where offset1 is the conduit's raw
upstream invert offset, without the outfall adjustment. -/
theorem getFlowClass_upDry_iff (sp : SWMM_Project) (ext : Ext) (j : ℕ)
    (q h1 h2 y1 y2 yC0 yN0 : ℚ) (hy1 : y1 ≤ FUDGE) (hy2 : FUDGE < y2) :
    ((getFlowClass sp ext j q h1 h2 y1 y2 yC0 yN0).1 = FlowClass.UP_DRY ↔
      h2 < (sp.Node (sp.Link j).node1).invertElev + (sp.Link j).offset1) := by
  unfold getFlowClass
  have hna : ¬(y1 > FUDGE ∧ y2 > FUDGE) := fun hc => absurd hc.1 (not_lt.mpr hy1)
  have hnb : ¬(y1 ≤ FUDGE ∧ y2 ≤ FUDGE) := fun hc => absurd hy2 (not_lt.mpr hc.2)
  rw [if_neg hna, if_neg hnb, if_pos hy2]
  split_ifs with hdry
  · simp [hdry]
  all_goals exact iff_of_false (by simp) hdry

/-- Witness for C3 amended at a concrete non-outfall conduit. -/
theorem getFlowClass_upDry_iff_witness :
    ((getFlowClass spW extW 0 0 0 (1/2) FUDGE 1 0 0).1 = FlowClass.UP_DRY ↔
      (1 : ℚ)/2 < (spW.Node (spW.Link 0).node1).invertElev + (spW.Link 0).offset1) :=
  getFlowClass_upDry_iff spW extW 0 0 0 (1/2) FUDGE 1 0 0 (le_refl FUDGE)
    (by with_unfolding_all decide)

-- The normal-flow check evaluated under a trigger that holds: the code
-- path reduces to the qNorm comparison of dwflow.c lines 638-646.
-- The trigger tests of checkNormalFlow decide exactly the trigger
-- condition that the spec describes.
theorem checkNormalFlow_check_iff (sp : SWMM_Project) (ext : Ext) (j : ℕ) (q y1 y2 a1 : ℚ) :
    checkNormalFlow_check sp ext j q y1 y2 a1 = true ↔
      normalFlowTriggerSpec sp ext j q y1 y2 a1 := by
  unfold checkNormalFlow_check normalFlowTriggerSpec
  dsimp only
  by_cases hp1 : (sp.NormalFlowLtd = NormalFlowType.SLOPE ∨ sp.NormalFlowLtd = NormalFlowType.BOTH ∨
      ((sp.Node (sp.Link j).node1).ntype = NodeType.OUTFALL ∨
       (sp.Node (sp.Link j).node2).ntype = NodeType.OUTFALL)) ∧ y1 < y2
  · simp [hp1]
  · by_cases hfb : sp.NormalFlowLtd = NormalFlowType.FROUDE ∨ sp.NormalFlowLtd = NormalFlowType.BOTH
    · by_cases ho : (sp.Node (sp.Link j).node1).ntype = NodeType.OUTFALL ∨
          (sp.Node (sp.Link j).node2).ntype = NodeType.OUTFALL
      · simp [hp1, hfb, ho]
      · by_cases hy1 : y1 > FUDGE
        · by_cases hy2 : y2 > FUDGE
          · have himp : (sp.NormalFlowLtd = NormalFlowType.SLOPE ∨
                sp.NormalFlowLtd = NormalFlowType.BOTH) → y2 ≤ y1 :=
              fun hsb => not_lt.mp (fun hlt =>
                hp1 ⟨hsb.elim Or.inl (fun hb => Or.inr (Or.inl hb)), hlt⟩)
            have hnsb : ¬((sp.NormalFlowLtd = NormalFlowType.SLOPE ∨
                sp.NormalFlowLtd = NormalFlowType.BOTH) ∧ y1 < y2) :=
              fun hc => hp1 ⟨hc.1.elim Or.inl (fun hb => Or.inr (Or.inl hb)), hc.2⟩
            simp [hp1, hfb, ho, hy1, hy2, himp, hnsb]
          · simp [hp1, hfb, ho, hy1, hy2]
        · simp [hp1, hfb, ho, hy1]
    · simp [hp1, hfb]

-- checkNormalFlow when the trigger holds: the qNorm comparison of
-- dwflow.c lines 638-646.
theorem checkNormalFlow_triggered (sp : SWMM_Project) (ext : Ext) (j : ℕ) (q y1 y2 a1 r1 : ℚ)
    (h : normalFlowTriggerSpec sp ext j q y1 y2 a1) :
    checkNormalFlow sp ext j q y1 y2 a1 r1 =
      if (sp.Conduit (sp.Link j).subIndex).beta * a1 * ext.rpow r1 (2 / 3) < q
      then ((sp.Conduit (sp.Link j).subIndex).beta * a1 * ext.rpow r1 (2 / 3), true)
      else (q, false) := by
  unfold checkNormalFlow
  dsimp only
  rw [if_pos ((checkNormalFlow_check_iff sp ext j q y1 y2 a1).mpr h)]

-- checkNormalFlow when no trigger holds: dwflow.c line 647.
theorem checkNormalFlow_untriggered (sp : SWMM_Project) (ext : Ext) (j : ℕ) (q y1 y2 a1 r1 : ℚ)
    (h : ¬ normalFlowTriggerSpec sp ext j q y1 y2 a1) :
    checkNormalFlow sp ext j q y1 y2 a1 r1 = (q, false) := by
  unfold checkNormalFlow
  dsimp only
  rw [if_neg (fun hc => h ((checkNormalFlow_check_iff sp ext j q y1 y2 a1).mp hc))]

/-- C7: whenever the spec's trigger condition holds (slope trigger, or
Froude trigger with no outfall endpoint and both depths above FUDGE) and
qNorm = beta * a1 * r1^(2/3) is below the incoming flow q, checkNormalFlow
returns qNorm and reports normalFlow = true; otherwise it returns q with
the flag unset; in every case the returned flow is at most q. -/
theorem checkNormalFlow_props (sp : SWMM_Project) (ext : Ext) (j : ℕ) (q y1 y2 a1 r1 : ℚ) :
    ((normalFlowTriggerSpec sp ext j q y1 y2 a1 ∧
        (sp.Conduit (sp.Link j).subIndex).beta * a1 * ext.rpow r1 (2 / 3) < q) →
      checkNormalFlow sp ext j q y1 y2 a1 r1 =
        ((sp.Conduit (sp.Link j).subIndex).beta * a1 * ext.rpow r1 (2 / 3), true)) ∧
    (¬(normalFlowTriggerSpec sp ext j q y1 y2 a1 ∧
        (sp.Conduit (sp.Link j).subIndex).beta * a1 * ext.rpow r1 (2 / 3) < q) →
      checkNormalFlow sp ext j q y1 y2 a1 r1 = (q, false)) ∧
    (checkNormalFlow sp ext j q y1 y2 a1 r1).1 ≤ q := by
  refine ⟨fun hc => ?_, fun hc => ?_, ?_⟩
  · rw [checkNormalFlow_triggered sp ext j q y1 y2 a1 r1 hc.1, if_pos hc.2]
  · by_cases ht : normalFlowTriggerSpec sp ext j q y1 y2 a1
    · rw [checkNormalFlow_triggered sp ext j q y1 y2 a1 r1 ht,
        if_neg (fun hlt => hc ⟨ht, hlt⟩)]
    · exact checkNormalFlow_untriggered sp ext j q y1 y2 a1 r1 ht
  · by_cases ht : normalFlowTriggerSpec sp ext j q y1 y2 a1
    · rw [checkNormalFlow_triggered sp ext j q y1 y2 a1 r1 ht]
      split_ifs with hlt
      · exact le_of_lt hlt
      · exact le_refl q
    · rw [checkNormalFlow_untriggered sp ext j q y1 y2 a1 r1 ht]

/-- Witness for C7: a slope-triggered capped call (depths 1 < 2, qNorm = 1
below q = 5) and an untriggered call (depths 2 > 1, Froude number 0). -/
theorem checkNormalFlow_props_witness :
    checkNormalFlow spW extW 0 5 1 2 1 1 =
      ((spW.Conduit (spW.Link 0).subIndex).beta * 1 * extW.rpow 1 (2 / 3), true) ∧
    checkNormalFlow spW extW 0 5 2 1 1 1 = (5, false) ∧
    (checkNormalFlow spW extW 0 5 2 1 1 1).1 ≤ 5 :=
  ⟨by rw [(checkNormalFlow_props spW extW 0 5 1 2 1 1).1
        ⟨Or.inl ⟨Or.inr (Or.inl rfl), by norm_num⟩, by with_unfolding_all decide⟩],
   (checkNormalFlow_props spW extW 0 5 2 1 1 1).2.1 (by with_unfolding_all decide),
   (checkNormalFlow_props spW extW 0 5 2 1 1 1).2.2⟩

-- Bounds for the fasnh blending formula at dwflow.c line 348, under the
-- branch conditions of lines 344-347.
theorem fasnh_formula_bounds (a b y : ℚ) (hmin : ¬ y < a) (hmax : y < b)
    (hfud : ¬ b - a < FUDGE) : 0 ≤ (b - y) / (b - a) ∧ (b - y) / (b - a) ≤ 1 := by
  have hba : 0 < b - a := lt_of_lt_of_le FUDGE_pos (not_lt.mp hfud)
  constructor
  · exact div_nonneg (by linarith) (le_of_lt hba)
  · rw [div_le_one hba]
    have := not_lt.mp hmin
    linarith

-- The blending fraction left in *fasnh by getFlowClass always lies in
-- the unit interval.
theorem getFlowClass_fasnh_bounds (sp : SWMM_Project) (ext : Ext) (j : ℕ)
    (q h1 h2 y1 y2 yC0 yN0 : ℚ) :
    0 ≤ (getFlowClass sp ext j q h1 h2 y1 y2 yC0 yN0).2.2.2 ∧
    (getFlowClass sp ext j q h1 h2 y1 y2 yC0 yN0).2.2.2 ≤ 1 := by
  unfold getFlowClass
  dsimp only
  split_ifs <;> dsimp only <;>
    first
      | exact ⟨zero_le_one, le_refl 1⟩
      | exact ⟨le_refl 0, zero_le_one⟩
      | (rename_i hmin hmax hfud; exact fasnh_formula_bounds _ _ _ hmin hmax hfud)

-- Nonnegative top widths give a nonnegative getWidth.
theorem getWidth_nonneg (ext : Ext) (xsect : TXsect) (y : ℚ)
    (hW : ∀ xs z, 0 ≤ ext.xsect_getWofY xs z) : 0 ≤ getWidth ext xsect y := hW _ _

-- Both surface areas produced by the flow-class switch are nonnegative,
-- for every class, given nonnegative widths, length and blending fraction.
theorem findSurfArea_dist_nonneg (sp : SWMM_Project) (ext : Ext) (j : ℕ)
    (length h1 h2 y1 y2 : ℚ) (fc : FlowClass) (cd nd fa : ℚ)
    (hW : ∀ xs z, 0 ≤ ext.xsect_getWofY xs z) (hL : 0 ≤ length) (hfa : 0 ≤ fa) :
    0 ≤ (findSurfArea_dist sp ext j length h1 h2 y1 y2 fc cd nd fa).surfArea1 ∧
    0 ≤ (findSurfArea_dist sp ext j length h1 h2 y1 y2 fc cd nd fa).surfArea2 := by
  have hw4 : ∀ a b : ℚ, 0 ≤ a → 0 ≤ b → 0 ≤ (a + b) * length / 4 :=
    fun a b ha hb => div_nonneg (mul_nonneg (add_nonneg ha hb) hL) (by norm_num)
  have hw5 : ∀ a b : ℚ, 0 ≤ a → 0 ≤ b → 0 ≤ (a + b) * length * 0.5 :=
    fun a b ha hb => mul_nonneg (mul_nonneg (add_nonneg ha hb) hL) (by norm_num)
  have hwn : ∀ z, 0 ≤ getWidth ext (sp.Link j).xsect z := fun z => getWidth_nonneg ext _ z hW
  have hite : ∀ (c : Prop) (inst : Decidable c) (a : ℚ), 0 ≤ a → 0 ≤ (if c then a else 0) := by
    intro c inst a ha
    split_ifs with h
    · exact ha
    · exact le_rfl
  cases fc
  case DRY =>
    exact ⟨div_nonneg (mul_nonneg (le_of_lt FUDGE_pos) hL) (by norm_num),
           div_nonneg (mul_nonneg (le_of_lt FUDGE_pos) hL) (by norm_num)⟩
  case SUBCRITICAL =>
    exact ⟨hw4 _ _ (hwn _) (hwn _), mul_nonneg (hw4 _ _ (hwn _) (hwn _)) hfa⟩
  case SUPCRITICAL => exact ⟨le_rfl, le_rfl⟩
  case UP_CRITICAL => exact ⟨le_rfl, hw5 _ _ (hwn _) (hwn _)⟩
  case DN_CRITICAL => exact ⟨hw5 _ _ (hwn _) (hwn _), le_rfl⟩
  case UP_DRY =>
    exact ⟨hite _ _ _ (hw4 _ _ (hwn _) (hwn _)), hw4 _ _ (hwn _) (hwn _)⟩
  case DN_DRY =>
    exact ⟨hw4 _ _ (hwn _) (hwn _), hite _ _ _ (hw4 _ _ (hwn _) (hwn _))⟩

/-- C10: if the cross-section top-width helper only returns nonnegative
values and the length is nonnegative, the surface areas stored by
findSurfArea are both nonnegative in every flow class; and the blending
fraction fasnh computed by getFlowClass always lies in [0, 1]. -/
theorem findSurfArea_props (sp : SWMM_Project) (ext : Ext) (j : ℕ)
    (q length h1 h2 y1 y2 yC0 yN0 : ℚ)
    (hW : ∀ xs z, 0 ≤ ext.xsect_getWofY xs z) (hL : 0 ≤ length) :
    0 ≤ (findSurfArea sp ext j q length h1 h2 y1 y2).surfArea1 ∧
    0 ≤ (findSurfArea sp ext j q length h1 h2 y1 y2).surfArea2 ∧
    0 ≤ (getFlowClass sp ext j q h1 h2 y1 y2 yC0 yN0).2.2.2 ∧
    (getFlowClass sp ext j q h1 h2 y1 y2 yC0 yN0).2.2.2 ≤ 1 := by
  have hd := findSurfArea_dist_nonneg sp ext j length h1 h2 y1 y2
    (getFlowClass sp ext j q h1 h2 y1 y2 ((y1 + y2) / 2) ((y1 + y2) / 2)).1
    (getFlowClass sp ext j q h1 h2 y1 y2 ((y1 + y2) / 2) ((y1 + y2) / 2)).2.1
    (getFlowClass sp ext j q h1 h2 y1 y2 ((y1 + y2) / 2) ((y1 + y2) / 2)).2.2.1
    (getFlowClass sp ext j q h1 h2 y1 y2 ((y1 + y2) / 2) ((y1 + y2) / 2)).2.2.2
    hW hL (getFlowClass_fasnh_bounds sp ext j q h1 h2 y1 y2 ((y1 + y2) / 2) ((y1 + y2) / 2)).1
  exact ⟨hd.1, hd.2, (getFlowClass_fasnh_bounds sp ext j q h1 h2 y1 y2 yC0 yN0).1,
    (getFlowClass_fasnh_bounds sp ext j q h1 h2 y1 y2 yC0 yN0).2⟩

/-- Witness for C10 at the concrete unit-width conduit. -/
theorem findSurfArea_props_witness :
    0 ≤ (findSurfArea spW extW 0 1 100 1 1 1 1).surfArea1 ∧
    0 ≤ (findSurfArea spW extW 0 1 100 1 1 1 1).surfArea2 ∧
    0 ≤ (getFlowClass spW extW 0 1 1 1 1 1 1 1).2.2.2 ∧
    (getFlowClass spW extW 0 1 1 1 1 1 1 1).2.2.2 ≤ 1 :=
  findSurfArea_props spW extW 0 1 100 1 1 1 1 1 1 (fun _ _ => zero_le_one) (by norm_num)

/-- C6: getFlowClass mutates no link, conduit or node state: the routine
rendered as a state transformer gives back the incoming project unchanged
together with the classification and the yC, yN, fasnh out-values of the
pure function. -/
theorem getFlowClassSt_pure (sp : SWMM_Project) (ext : Ext) (j : ℕ)
    (q h1 h2 y1 y2 yC0 yN0 : ℚ) :
    getFlowClassSt sp ext j q h1 h2 y1 y2 yC0 yN0 =
      (sp, getFlowClass sp ext j q h1 h2 y1 y2 yC0 yN0) := by
  unfold getFlowClassSt getFlowClass
  dsimp only
  split_ifs <;> rfl

end SWMM

namespace SWMM

theorem underRelax_snap (steps : ℕ) (omega qLast q : ℚ) (hsteps : 0 < steps)
    (h : underRelax steps omega qLast q * qLast < 0) :
    |underRelax steps omega qLast q| ≤ 0.001 := by
  unfold underRelax at h ⊢
  rw [if_pos hsteps] at h ⊢
  dsimp only at h ⊢
  by_cases hs : ((1 - omega) * qLast + omega * q) * qLast < 0
  · rw [if_pos hs]
    unfold SGN
    split_ifs <;> norm_num [abs_le]
  · rw [if_neg hs] at h
    exact absurd h hs

theorem applyQLimit_shrink (L q w : ℚ) (h : applyQLimit L q * w < 0) :
    q * w < 0 ∧ |applyQLimit L q| ≤ |q| := by
  unfold applyQLimit at h ⊢
  split_ifs at h ⊢ with hc
  · obtain ⟨hL, habs⟩ := hc
    constructor
    · unfold SGN at h
      split_ifs at h with hq
      · have hw : 0 < w := by nlinarith
        exact mul_neg_of_neg_of_pos hq hw
      · have hq0 : 0 < q := by
          rcases lt_trichotomy q 0 with h1 | h1 | h1
          · exact absurd h1 hq
          · rw [h1] at habs
            simp at habs
            exact absurd habs (not_lt.mpr (le_of_lt hL))
          · exact h1
        have hw : w < 0 := by nlinarith
        exact mul_neg_of_pos_of_neg hq0 hw
    · rw [abs_mul]
      have : |SGN q| = 1 := by
        unfold SGN
        split_ifs <;> norm_num
      rw [this, one_mul, abs_of_pos hL]
      exact le_of_lt habs
  · exact ⟨h, le_rfl⟩

theorem dryNodeChoke_shrink (d1 d2 q w : ℚ) (h : dryNodeChoke d1 d2 q * w < 0) :
    q * w < 0 ∧ |dryNodeChoke d1 d2 q| ≤ |q| := by
  unfold dryNodeChoke at h ⊢
  dsimp only at h ⊢
  split_ifs at h ⊢ with h1 h2 h3
  · exact absurd h2.1 (by norm_num [FUDGE])
  · -- q > FUDGE, node1 dry: value FUDGE
    have hq0 : 0 < q := lt_trans FUDGE_pos h1.1
    have hw : w < 0 := by nlinarith [FUDGE_pos]
    refine ⟨mul_neg_of_pos_of_neg hq0 hw, ?_⟩
    rw [abs_of_pos FUDGE_pos, abs_of_pos hq0]
    exact le_of_lt h1.1
  · -- value -FUDGE, q < -FUDGE
    have hq0 : q < 0 := lt_trans h3.1 (by norm_num [FUDGE])
    have hw : 0 < w := by nlinarith [FUDGE_pos]
    refine ⟨mul_neg_of_neg_of_pos hq0 hw, ?_⟩
    rw [abs_of_neg hq0, abs_of_nonpos (by norm_num [FUDGE] : (-FUDGE : ℚ) ≤ 0), neg_neg]
    linarith [h3.1]
  · exact ⟨h, le_rfl⟩

theorem dwflow_relaxFlow_snap (sp : SWMM_Project) (ext : Ext) (j steps : ℕ) (omega : ℚ)
    (c : DwCtx) (q : ℚ) (hsteps : 0 < steps)
    (h : dwflow_relaxFlow sp ext j steps omega c q * c.qLast < 0) :
    |dwflow_relaxFlow sp ext j steps omega c q| ≤ 0.001 := by
  unfold dwflow_relaxFlow at h ⊢
  dsimp only at h ⊢
  have h4 := dryNodeChoke_shrink (sp.Node c.n1).newDepth (sp.Node c.n2).newDepth _ c.qLast h
  by_cases hb : ext.link_setFlapGate j c.n1 c.n2
      (applyQLimit (sp.Link j).qLimit (underRelax steps omega c.qLast q)) = true
  · rw [if_pos hb] at h4
    exact absurd h4.1 (by simp)
  · rw [if_neg hb] at h4 h ⊢
    have h2 := applyQLimit_shrink (sp.Link j).qLimit (underRelax steps omega c.qLast q)
      c.qLast h4.1
    have h1 := underRelax_snap steps omega c.qLast q hsteps h2.1
    calc |dryNodeChoke (sp.Node c.n1).newDepth (sp.Node c.n2).newDepth
            (applyQLimit (sp.Link j).qLimit (underRelax steps omega c.qLast q))|
        ≤ |applyQLimit (sp.Link j).qLimit (underRelax steps omega c.qLast q)| := h4.2
      _ ≤ |underRelax steps omega c.qLast q| := h2.2
      _ ≤ 0.001 := h1

/-- C2 counterexample: on the very first sub-iteration (steps = 0) the
under-relaxation block of dwflow.c lines 244-248 is skipped entirely, so
the stored per-barrel flow can reverse sign relative to the prior
iteration's flow qLast without its magnitude being FUDGE (here it is
0.001, the actual snap value of the code, reached through the dry-node
cutoff rather than the snap). -/
theorem dwflow_signReversal_cex :
    (dwflow_findConduitFlow spW extW 0 0 1 30).2.q1 * (spW.Conduit 0).q1 < 0 ∧
    ¬ |(dwflow_findConduitFlow spW extW 0 0 1 30).2.q1| = FUDGE := by
  constructor
  · with_unfolding_all decide
  · with_unfolding_all decide

/-- C2 (amended): for sub-iterations after the first (steps > 0), if the
stored per-barrel flow Conduit.q1 and the prior-iteration flow qLast have
strictly opposite signs, then its magnitude is at most 0.001 (the snap
value of dwflow.c line 247 is 0.001, not FUDGE, and the later stages of
lines 250-262 can only shrink a flow further or restore its sign). -/
theorem dwflow_signSnap (sp : SWMM_Project) (ext : Ext) (j steps : ℕ) (omega dt : ℚ)
    (hsteps : 0 < steps)
    (h : (dwflow_findConduitFlow sp ext j steps omega dt).2.q1 *
      (sp.Conduit (sp.Link j).subIndex).q1 < 0) :
    |(dwflow_findConduitFlow sp ext j steps omega dt).2.q1| ≤ 0.001 := by
  unfold dwflow_findConduitFlow at h ⊢
  dsimp only at h ⊢
  by_cases hc : (dwflow_setup sp ext j).flowClass = FlowClass.DRY ∨
      (dwflow_setup sp ext j).flowClass = FlowClass.UP_DRY ∨
      (dwflow_setup sp ext j).flowClass = FlowClass.DN_DRY ∨
      (dwflow_setup sp ext j).isClosed = true ∨ (dwflow_setup sp ext j).aMid ≤ FUDGE
  · rw [if_pos hc] at h
    have : (dwflow_earlyOut sp ext j dt (dwflow_setup sp ext j)).2.q1 = 0 := rfl
    rw [this] at h
    simp at h
  · rw [if_neg hc] at h ⊢
    exact dwflow_relaxFlow_snap sp ext j steps omega (dwflow_setup sp ext j) _ hsteps h

theorem dwflow_signSnap_witness :
    |(dwflow_findConduitFlow spW extW 0 1 1 30).2.q1| ≤ 0.001 :=
  dwflow_signSnap spW extW 0 1 1 30 (by norm_num) (by with_unfolding_all decide)

end SWMM

namespace Mathexpr

/-- C9: evaluating an empty (null) postfix program returns exactly 0, for
every math-library model and every variable-value callback: the stack
bottom is initialised to 0.0, no opcode runs, and the final NaN-to-0
coercion leaves 0.0 unchanged. -/
theorem mathexpr_eval_nil (pr : Prims) (gvv : Option (ℤ → ℚ)) :
    mathexpr_eval pr gvv [] = 0 := rfl

/-- C4 counterexample: the LOG10 case of the evaluator guards only an
exactly-zero argument (dwflow.c line 1375 tests `r1 == 0.0`), so LOG10 of
a negative top-of-stack value is the library log10 of a negative number —
NaN, not 0; downstream the program `STEP(LOG10(-1))` then evaluates to 1
(NaN fails the `<= 0` test of the STEP case), where the spec's protective
semantics would give 0. -/
theorem evalNode_log10_neg_cex :
    ¬ evalNode prW none ⟨27, -1, 0⟩ [some (-1)] = [some 0] ∧
    mathexpr_eval prW none [⟨7, -1, -1⟩, ⟨27, -1, 0⟩, ⟨28, -1, 0⟩] = 1 := by
  constructor
  · with_unfolding_all decide
  · with_unfolding_all decide

/-- C4 (amended): the protective guards of the evaluator, as coded: LOG of
a non-positive value yields 0 (dwflow.c lines 1313-1318), SQRT of a
negative value yields 0 (lines 1306-1311), but LOG10 is guarded only for
an exactly zero value (lines 1374-1379). -/
theorem evalNode_domain_guards (pr : Prims) (gvv : Option (ℤ → ℚ)) (iv : ℤ) (fv x : ℚ)
    (rest : List (Option ℚ)) :
    (x ≤ 0 → evalNode pr gvv ⟨17, iv, fv⟩ (some x :: rest) = some 0 :: rest) ∧
    (x < 0 → evalNode pr gvv ⟨16, iv, fv⟩ (some x :: rest) = some 0 :: rest) ∧
    (x = 0 → evalNode pr gvv ⟨27, iv, fv⟩ (some x :: rest) = some 0 :: rest) := by
  refine ⟨fun hx => ?_, fun hx => ?_, fun hx => ?_⟩ <;>
    · unfold evalNode
      simp [hx]

theorem evalNode_domain_guards_witness :
    evalNode prW none ⟨17, -1, 0⟩ [some (-1)] = [some 0] ∧
    evalNode prW none ⟨16, -1, 0⟩ [some (-1)] = [some 0] ∧
    evalNode prW none ⟨27, -1, 0⟩ [some 0] = [some 0] :=
  ⟨(evalNode_domain_guards prW none (-1) 0 (-1) []).1 (by norm_num),
   (evalNode_domain_guards prW none (-1) 0 (-1) []).2.1 (by norm_num),
   (evalNode_domain_guards prW none (-1) 0 0 []).2.2 rfl⟩

/-- C5 counterexample: the formula "1E" (a literal with a malformed
exponent) does NOT make the build fail: mathexpr_create returns a
one-node program — the literal 0 — and evaluating it yields 0. The
errflag that getNumber raises at dwflow.c line 868 is a local variable;
the function returns 0.0 and the shared error state is never set. -/
theorem mathexpr_create_malformedExp_cex :
    mathexpr_create none ['1', 'E'] = some [⟨7, -1, 0⟩] ∧
    mathexpr_eval prW none [⟨7, -1, 0⟩] = 0 := by
  constructor
  · with_unfolding_all decide
  · with_unfolding_all decide

/-- C5 (amended): when the literal under getNumber's cursor has a
malformed exponent — digits (with optional fraction) followed by 'e'/'E'
whose tail is the end of the string, a sign at the end of the string, or
a non-digit — getNumber returns the value 0 and leaves the shared error
flag and bracket count untouched, so the build does not fail on its
account (the C errflag of dwflow.c lines 866-893 is local and its only
effect is the `return 0` at line 892). -/
theorem getNumber_malformedExp (st : MState) (rp : ℤ) (rv : List Char)
    (hr2 : (if charAt st.s (scanDigits st.s st.len (st.s.length + 2) st.pos []).1 = '.'
            then scanDigits st.s st.len (st.s.length + 2)
              ((scanDigits st.s st.len (st.s.length + 2) st.pos []).1 + 1)
              ((scanDigits st.s st.len (st.s.length + 2) st.pos []).2 ++ ['.'])
            else scanDigits st.s st.len (st.s.length + 2) st.pos []) = (rp, rv))
    (h1 : (scanDigits st.s st.len (st.s.length + 2) st.pos []).1 < st.len)
    (h2 : rp < st.len)
    (h3 : charAt st.s rp = 'e' ∨ charAt st.s rp = 'E')
    (h4 : rp + 1 ≥ st.len ∨ (¬ rp + 1 ≥ st.len ∧
      ((if charAt st.s (rp + 1) = '-' ∨ charAt st.s (rp + 1) = '+'
        then rp + 1 + 1 else rp + 1) ≥ st.len ∨
       ¬ isDigit (charAt st.s (if charAt st.s (rp + 1) = '-' ∨ charAt st.s (rp + 1) = '+'
        then rp + 1 + 1 else rp + 1)) = true))) :
    (getNumber st).1 = 0 ∧ (getNumber st).2.err = st.err ∧ (getNumber st).2.bc = st.bc := by
  refine ⟨?_, rfl, rfl⟩
  unfold getNumber
  dsimp only
  rw [if_pos h1, hr2]
  dsimp only
  rw [if_pos (And.intro h2 h3)]
  rcases h4 with hp | ⟨hp, hbad⟩
  · rw [if_pos hp]
    simp
  · rw [if_neg hp]
    by_cases hsgn : charAt st.s (rp + 1) = '-' ∨ charAt st.s (rp + 1) = '+'
    · rw [if_pos hsgn] at hbad ⊢
      dsimp only
      rw [if_pos hbad]
      simp
    · rw [if_neg hsgn] at hbad ⊢
      dsimp only
      rw [if_pos hbad]
      simp

theorem getNumber_malformedExp_witness :
    (getNumber ⟨['1', 'E'], 2, 0, 0, 0, 0, 0, 0, -1, []⟩).1 = 0 ∧
    (getNumber ⟨['1', 'E'], 2, 0, 0, 0, 0, 0, 0, -1, []⟩).2.err = 0 ∧
    (getNumber ⟨['1', 'E'], 2, 0, 0, 0, 0, 0, 0, -1, []⟩).2.bc = 0 :=
  getNumber_malformedExp ⟨['1', 'E'], 2, 0, 0, 0, 0, 0, 0, -1, []⟩ 1 ['1']
    (by with_unfolding_all decide) (by with_unfolding_all decide)
    (by with_unfolding_all decide) (by with_unfolding_all decide)
    (by with_unfolding_all decide)

end Mathexpr

namespace SWMM

-- the friction denominator is antitone in absolute value: a larger positive
-- denominator cannot increase |N / D|, and the two quotients never have
-- strictly opposite signs
theorem div_abs_antitone (N D1 D2 : ℚ) (hD1 : 0 < D1) (h12 : D1 ≤ D2) :
    |N / D2| ≤ |N / D1| ∧ 0 ≤ N / D1 * (N / D2) := by
  have hD2 : 0 < D2 := lt_of_lt_of_le hD1 h12
  constructor
  · rw [abs_div, abs_div, abs_of_pos hD1, abs_of_pos hD2]
    gcongr
  · rw [div_mul_div_comm]
    exact div_nonneg (mul_self_nonneg N) (le_of_lt (mul_pos hD1 hD2))

-- the trigger tests of checkNormalFlow depend on the candidate flow only
-- through the Froude helper; with that helper held fixed they are the same
-- for any two candidate flows
theorem checkNormalFlow_check_constq (sp : SWMM_Project) (ext : Ext) (j : ℕ)
    (qa qb y1 y2 a1 : ℚ)
    (hfr : ∀ v v' y, ext.link_getFroude j v y = ext.link_getFroude j v' y) :
    checkNormalFlow_check sp ext j qb y1 y2 a1 =
      checkNormalFlow_check sp ext j qa y1 y2 a1 := by
  unfold checkNormalFlow_check
  dsimp only
  rw [hfr (qb / a1) (qa / a1) y1]

-- the limitation checks of dwflow.c lines 225-240 preserve the
-- smaller-magnitude, never-opposite-signs relation between two candidate
-- flows, provided the culvert and Froude helpers ignore the candidate flow
theorem flowLimit_inv (sp : SWMM_Project) (ext : Ext) (j : ℕ) (isFull : Bool)
    (fc : FlowClass) (h1 y1 y2 a1 r1 qa qb : ℚ)
    (hculv : ∀ q q' h, ext.culvert_getInflow j q h = ext.culvert_getInflow j q' h)
    (hfr : ∀ v v' y, ext.link_getFroude j v y = ext.link_getFroude j v' y)
    (habs : |qb| ≤ |qa|) (hsgn : 0 ≤ qa * qb) :
    |(flowLimit sp ext j isFull fc h1 y1 y2 a1 r1 qb).1| ≤
      |(flowLimit sp ext j isFull fc h1 y1 y2 a1 r1 qa).1| ∧
    0 ≤ (flowLimit sp ext j isFull fc h1 y1 y2 a1 r1 qa).1 *
        (flowLimit sp ext j isFull fc h1 y1 y2 a1 r1 qb).1 := by
  unfold flowLimit
  by_cases hqa : qa > 0
  · by_cases hqb : qb > 0
    · rw [if_pos hqa, if_pos hqb]
      by_cases hcv : (sp.Link j).xsect.culvertCode > 0 ∧ ¬ isFull = true
      · rw [if_pos hcv, if_pos hcv]
        dsimp only
        rw [hculv qb qa h1]
        exact ⟨le_rfl, mul_self_nonneg _⟩
      · rw [if_neg hcv, if_neg hcv]
        by_cases hnf : y1 < (sp.Link j).xsect.yFull ∧
            (fc = FlowClass.SUBCRITICAL ∨ fc = FlowClass.SUPCRITICAL)
        · rw [if_pos hnf, if_pos hnf]
          dsimp only
          unfold checkNormalFlow
          dsimp only
          rw [checkNormalFlow_check_constq sp ext j qa qb y1 y2 a1 hfr]
          by_cases hC : checkNormalFlow_check sp ext j qa y1 y2 a1 = true
          · rw [if_pos hC, if_pos hC]
            have hba : qb ≤ qa := by
              rw [abs_of_pos hqa, abs_of_pos hqb] at habs
              exact habs
            by_cases hna : (sp.Conduit (sp.Link j).subIndex).beta * a1 *
                ext.rpow r1 (2 / 3) < qa
            · by_cases hnb : (sp.Conduit (sp.Link j).subIndex).beta * a1 *
                  ext.rpow r1 (2 / 3) < qb
              · rw [if_pos hna, if_pos hnb]
                exact ⟨le_rfl, mul_self_nonneg _⟩
              · rw [if_pos hna, if_neg hnb]
                dsimp only
                have hbn := not_lt.mp hnb
                constructor
                · rw [abs_of_pos hqb, abs_of_pos (lt_of_lt_of_le hqb hbn)]
                  exact hbn
                · exact le_of_lt (mul_pos (lt_of_lt_of_le hqb hbn) hqb)
            · have hnb : ¬ (sp.Conduit (sp.Link j).subIndex).beta * a1 *
                  ext.rpow r1 (2 / 3) < qb := fun hcon => hna (lt_of_lt_of_le hcon hba)
              rw [if_neg hna, if_neg hnb]
              dsimp only
              exact ⟨habs, hsgn⟩
          · rw [if_neg hC, if_neg hC]
            dsimp only
            exact ⟨habs, hsgn⟩
        · rw [if_neg hnf, if_neg hnf]
          dsimp only
          exact ⟨habs, hsgn⟩
    · have h0 : qa * qb = 0 := by
        have hup : qa * qb ≤ 0 := by nlinarith [not_lt.mp hqb]
        exact le_antisymm hup hsgn
      have hqb0 : qb = 0 := by
        rcases mul_eq_zero.mp h0 with h | h
        · exact absurd h (ne_of_gt hqa)
        · exact h
      rw [if_pos hqa, if_neg hqb]
      constructor
      · rw [hqb0, abs_zero]
        exact abs_nonneg _
      · rw [hqb0, mul_zero]
  · by_cases hqb : qb > 0
    · exfalso
      have h0 : qa * qb = 0 := by
        have hup : qa * qb ≤ 0 := by nlinarith [not_lt.mp hqa]
        exact le_antisymm hup hsgn
      have hqa0 : qa = 0 := by
        rcases mul_eq_zero.mp h0 with h | h
        · exact h
        · exact absurd h (ne_of_gt hqb)
      rw [hqa0, abs_zero] at habs
      have hqbz : qb = 0 := abs_eq_zero.mp (le_antisymm habs (abs_nonneg _))
      rw [hqbz] at hqb
      exact lt_irrefl 0 hqb
    · rw [if_neg hqa, if_neg hqb]
      exact ⟨habs, hsgn⟩

-- the user flow limit of dwflow.c lines 250-254 preserves the same relation
theorem applyQLimit_inv (L qa qb : ℚ) (habs : |qb| ≤ |qa|) (hsgn : 0 ≤ qa * qb) :
    |applyQLimit L qb| ≤ |applyQLimit L qa| ∧
    0 ≤ applyQLimit L qa * applyQLimit L qb := by
  unfold applyQLimit
  by_cases hL : L > 0
  · by_cases ha : |qa| > L
    · by_cases hb : |qb| > L
      · rw [if_pos ⟨hL, hb⟩, if_pos ⟨hL, ha⟩]
        have hqa0 : qa ≠ 0 := by
          intro h
          rw [h, abs_zero] at ha
          linarith
        have hqb0 : qb ≠ 0 := by
          intro h
          rw [h, abs_zero] at hb
          linarith
        constructor
        · rw [abs_mul, abs_mul]
          have s1 : |SGN qb| = 1 := by
            unfold SGN
            split_ifs <;> norm_num
          have s2 : |SGN qa| = 1 := by
            unfold SGN
            split_ifs <;> norm_num
          rw [s1, s2]
        · unfold SGN
          split_ifs with h1 h2 h2
          · nlinarith [mul_pos hL hL]
          · exfalso
            have hq : qb > 0 := lt_of_le_of_ne (not_lt.mp h2) (Ne.symm hqb0)
            nlinarith
          · exfalso
            have hq : qa > 0 := lt_of_le_of_ne (not_lt.mp h1) (Ne.symm hqa0)
            nlinarith
          · nlinarith [mul_pos hL hL]
      · rw [if_neg (fun hcon => hb hcon.2), if_pos ⟨hL, ha⟩]
        constructor
        · rw [abs_mul]
          have s2 : |SGN qa| = 1 := by
            unfold SGN
            split_ifs <;> norm_num
          rw [s2, one_mul, abs_of_pos hL]
          exact not_lt.mp hb
        · unfold SGN
          split_ifs with h1
          · have hqb0 : qb ≤ 0 := by nlinarith
            nlinarith
          · have hqa0 : qa ≠ 0 := by
              intro h
              rw [h, abs_zero] at ha
              linarith
            have hqa1 : qa > 0 := lt_of_le_of_ne (not_lt.mp h1) (Ne.symm hqa0)
            have hqb0 : qb ≥ 0 := by nlinarith
            nlinarith
    · have hb : ¬ |qb| > L := fun hcon => ha (lt_of_lt_of_le hcon habs)
      rw [if_neg (fun hcon => hb hcon.2), if_neg (fun hcon => ha hcon.2)]
      exact ⟨habs, hsgn⟩
  · rw [if_neg (fun hcon => hL hcon.1), if_neg (fun hcon => hL hcon.1)]
    exact ⟨habs, hsgn⟩

-- the dry-node cutoff of dwflow.c lines 259-262 cannot increase the
-- magnitude of the smaller of two same-signed flows past the larger's
theorem dryNodeChoke_inv (d1 d2 qa qb : ℚ) (habs : |qb| ≤ |qa|) (hsgn : 0 ≤ qa * qb) :
    |dryNodeChoke d1 d2 qb| ≤ |dryNodeChoke d1 d2 qa| := by
  have hF := FUDGE_pos
  unfold dryNodeChoke
  dsimp only
  by_cases hA1 : qa > FUDGE ∧ d1 ≤ FUDGE
  · rw [if_pos hA1,
      if_neg (show ¬ (FUDGE < -FUDGE ∧ d2 ≤ FUDGE) from fun hcon =>
        absurd hcon.1 (by norm_num [FUDGE]))]
    have hqb0 : 0 ≤ qb := by nlinarith [hA1.1]
    by_cases hB1 : qb > FUDGE ∧ d1 ≤ FUDGE
    · rw [if_pos hB1,
        if_neg (show ¬ (FUDGE < -FUDGE ∧ d2 ≤ FUDGE) from fun hcon =>
          absurd hcon.1 (by norm_num [FUDGE]))]
    · rw [if_neg hB1,
        if_neg (show ¬ (qb < -FUDGE ∧ d2 ≤ FUDGE) from fun hcon =>
          absurd hcon.1 (by linarith))]
      have hqbF : qb ≤ FUDGE := by
        by_contra hcon
        exact hB1 ⟨lt_of_not_le hcon, hA1.2⟩
      rw [abs_of_pos hF, abs_of_nonneg hqb0]
      exact hqbF
  · rw [if_neg hA1]
    by_cases hA2 : qa < -FUDGE ∧ d2 ≤ FUDGE
    · rw [if_pos hA2]
      have hqb0 : qb ≤ 0 := by nlinarith [hA2.1]
      rw [if_neg (show ¬ (qb > FUDGE ∧ d1 ≤ FUDGE) from fun hcon => by linarith [hcon.1])]
      by_cases hB2 : qb < -FUDGE ∧ d2 ≤ FUDGE
      · rw [if_pos hB2]
      · rw [if_neg hB2]
        have hqbF : -FUDGE ≤ qb := by
          by_contra hcon
          exact hB2 ⟨lt_of_not_le hcon, hA2.2⟩
        rw [abs_neg, abs_of_pos hF, abs_of_nonpos hqb0]
        linarith
    · rw [if_neg hA2]
      by_cases hB1 : qb > FUDGE ∧ d1 ≤ FUDGE
      · exfalso
        have hqbp : qb > FUDGE := hB1.1
        have hqap : 0 ≤ qa := by nlinarith
        rw [abs_of_pos (by linarith : (0:ℚ) < qb), abs_of_nonneg hqap] at habs
        exact hA1 ⟨by linarith, hB1.2⟩
      · rw [if_neg hB1]
        by_cases hB2 : qb < -FUDGE ∧ d2 ≤ FUDGE
        · exfalso
          have hqbn : qb < -FUDGE := hB2.1
          have hqan : qa ≤ 0 := by nlinarith
          have hqaF : -FUDGE ≤ qa := by
            by_contra hcon
            exact hA2 ⟨lt_of_not_le hcon, hB2.2⟩
          rw [abs_of_neg (by linarith : qb < 0), abs_of_nonpos hqan] at habs
          linarith
        · rw [if_neg hB2]
          exact habs

-- under-relax / flow-limit / flap-gate / dry-node stage chain on the first
-- sub-iteration: with the flap helper ignoring the candidate flow, the
-- relation is preserved end to end
theorem dwflow_relaxFlow_inv (sp : SWMM_Project) (ext : Ext) (j : ℕ) (omega : ℚ)
    (c : DwCtx) (qa qb : ℚ)
    (hflap : ∀ a b q q', ext.link_setFlapGate j a b q = ext.link_setFlapGate j a b q')
    (habs : |qb| ≤ |qa|) (hsgn : 0 ≤ qa * qb) :
    |dwflow_relaxFlow sp ext j 0 omega c qb| ≤ |dwflow_relaxFlow sp ext j 0 omega c qa| := by
  unfold dwflow_relaxFlow
  dsimp only
  have hur : ∀ q : ℚ, underRelax 0 omega c.qLast q = q := by
    intro q
    unfold underRelax
    exact if_neg (by norm_num)
  simp only [hur]
  obtain ⟨ha1, hs1⟩ := applyQLimit_inv (sp.Link j).qLimit qa qb habs hsgn
  by_cases hfb : ext.link_setFlapGate j c.n1 c.n2 (applyQLimit (sp.Link j).qLimit qb) = true
  · have hfa : ext.link_setFlapGate j c.n1 c.n2 (applyQLimit (sp.Link j).qLimit qa) = true := by
      rw [hflap c.n1 c.n2 (applyQLimit (sp.Link j).qLimit qa) (applyQLimit (sp.Link j).qLimit qb)]
      exact hfb
    rw [if_pos hfb, if_pos hfa]
  · have hfa : ¬ ext.link_setFlapGate j c.n1 c.n2 (applyQLimit (sp.Link j).qLimit qa) = true := by
      rw [hflap c.n1 c.n2 (applyQLimit (sp.Link j).qLimit qa) (applyQLimit (sp.Link j).qLimit qb)]
      exact hfb
    rw [if_neg hfb, if_neg hfa]
    exact dryNodeChoke_inv _ _ _ _ ha1 hs1

-- the whole post-momentum pipeline, with the friction slope written out:
-- a larger friction factor cannot increase the final flow magnitude
theorem dwflow_pipeline_mono (sp : SWMM_Project) (ext : Ext) (j : ℕ)
    (omega dt rf r2 N P dq5 v : ℚ) (c : DwCtx) (fc : FlowClass)
    (hR0 : 0 ≤ rf) (hR : rf ≤ r2) (hdt : 0 ≤ dt) (hP : 0 < P) (hdq5 : 0 ≤ dq5)
    (hculv : ∀ q q' h, ext.culvert_getInflow j q h = ext.culvert_getInflow j q' h)
    (hfr : ∀ v1 v2 y, ext.link_getFroude j v1 y = ext.link_getFroude j v2 y)
    (hflap : ∀ a b q q', ext.link_setFlapGate j a b q = ext.link_setFlapGate j a b q') :
    |dwflow_relaxFlow sp ext j 0 omega c
        (flowLimit sp ext j c.isFull fc c.h1 c.y1 c.y2 c.a1 c.r1
          (N / (1 + dt * r2 / P * |v| + dq5))).1| ≤
      |dwflow_relaxFlow sp ext j 0 omega c
        (flowLimit sp ext j c.isFull fc c.h1 c.y1 c.y2 c.a1 c.r1
          (N / (1 + dt * rf / P * |v| + dq5))).1| := by
  have h1 : 0 ≤ dt * rf / P * |v| :=
    mul_nonneg (div_nonneg (mul_nonneg hdt hR0) (le_of_lt hP)) (abs_nonneg _)
  have hD1 : 0 < 1 + dt * rf / P * |v| + dq5 := by linarith
  have hD12 : 1 + dt * rf / P * |v| + dq5 ≤ 1 + dt * r2 / P * |v| + dq5 := by
    have h2 : dt * rf / P ≤ dt * r2 / P :=
      (div_le_div_iff_of_pos_right hP).mpr (mul_le_mul_of_nonneg_left hR hdt)
    have h3 := mul_le_mul_of_nonneg_right h2 (abs_nonneg v)
    linarith
  obtain ⟨h4, h5⟩ := div_abs_antitone N _ _ hD1 hD12
  obtain ⟨h6, h7⟩ := flowLimit_inv sp ext j c.isFull fc c.h1 c.y1 c.y2 c.a1 c.r1 _ _
    hculv hfr h4 h5
  exact dwflow_relaxFlow_inv sp ext j omega c _ _ hflap h6 h7

theorem dwflow_earlyOut_newFlow (sp : SWMM_Project) (ext : Ext) (j : ℕ) (dt : ℚ)
    (c : DwCtx) :
    (dwflow_earlyOut sp ext j dt c).1.newFlow = 0 := rfl

theorem dwflow_main_newFlow (sp : SWMM_Project) (ext : Ext) (j steps : ℕ) (omega dt : ℚ)
    (c : DwCtx) :
    (dwflow_main sp ext j steps omega dt c).1.newFlow =
      dwflow_relaxFlow sp ext j steps omega c
        (flowLimit sp ext j c.isFull (dwflow_terms sp ext j dt c).flowClass2
          c.h1 c.y1 c.y2 c.a1 c.r1
          ((c.qOld - (dwflow_terms sp ext j dt c).dq2 + (dwflow_terms sp ext j dt c).dq3
            + (dwflow_terms sp ext j dt c).dq4 - (dwflow_terms sp ext j dt c).dq6)
           / (1 + dwflow_dq1 sp ext j dt c (dwflow_terms sp ext j dt c)
              + (dwflow_terms sp ext j dt c).dq5))).1 * c.barrels := rfl

theorem dwflow_main_newFlow_rough (sp : SWMM_Project) (ext : Ext) (j steps : ℕ)
    (omega dt r : ℚ) (c : DwCtx) :
    (dwflow_main (withRough sp r) ext j steps omega dt c).1.newFlow =
      dwflow_relaxFlow sp ext j steps omega c
        (flowLimit sp ext j c.isFull (dwflow_terms sp ext j dt c).flowClass2
          c.h1 c.y1 c.y2 c.a1 c.r1
          ((c.qOld - (dwflow_terms sp ext j dt c).dq2 + (dwflow_terms sp ext j dt c).dq3
            + (dwflow_terms sp ext j dt c).dq4 - (dwflow_terms sp ext j dt c).dq6)
           / (1 + (if (sp.Link j).xsect.shape = FORCE_MAIN ∧ c.isFull
                   then dt * ext.forcemain_getFricSlope j |(dwflow_terms sp ext j dt c).v| c.rMid
                   else dt * r / ext.rpow (dwflow_terms sp ext j dt c).rWtd 1.33333
                        * |(dwflow_terms sp ext j dt c).v|)
              + (dwflow_terms sp ext j dt c).dq5))).1 * c.barrels := rfl

/-- C8 counterexample: with under-relaxation active (steps = 1, omega =
1/2) raising the conduit's friction factor from 0 to 1, all other inputs
held fixed, INCREASES the magnitude of the stored link.newFlow: the
low-friction run reverses sign and is snapped to magnitude 0.001, while
the high-friction run keeps a larger magnitude. -/
theorem dwflow_friction_cex :
    (spW.Conduit 0).roughFactor < ((withRough spW 1).Conduit 0).roughFactor ∧
    |(dwflow_findConduitFlow spW extW 0 1 (1/2) 30).1.newFlow| <
      |(dwflow_findConduitFlow (withRough spW 1) extW 0 1 (1/2) 30).1.newFlow| := by
  constructor
  · with_unfolding_all decide
  · with_unfolding_all decide

/-- C8 (amended): monotone friction holds on the first sub-iteration
(steps = 0, before under-relaxation can snap a reversed flow): for two
calls identical except that the second has conduit friction factor r2 at
least the first's (the first's nonnegative), with dt >= 0, a positive
friction power term, nonnegative local-loss term, the conduit not a full
force main, and the culvert, Froude and flap-gate helpers ignoring the
candidate flow, the second call's |link.newFlow| is at most the
first's. -/
theorem dwflow_friction_mono (sp : SWMM_Project) (ext : Ext) (j : ℕ) (omega dt r2 : ℚ)
    (hR0 : 0 ≤ (sp.Conduit (dwflow_setup sp ext j).k).roughFactor)
    (hR : (sp.Conduit (dwflow_setup sp ext j).k).roughFactor ≤ r2)
    (hdt : 0 ≤ dt)
    (hrpow : 0 < ext.rpow (dwflow_terms sp ext j dt (dwflow_setup sp ext j)).rWtd 1.33333)
    (hdq5 : 0 ≤ (dwflow_terms sp ext j dt (dwflow_setup sp ext j)).dq5)
    (hFM : ¬ ((sp.Link j).xsect.shape = FORCE_MAIN ∧
      (dwflow_setup sp ext j).isFull = true))
    (hculv : ∀ q q' h, ext.culvert_getInflow j q h = ext.culvert_getInflow j q' h)
    (hfr : ∀ v v' y, ext.link_getFroude j v y = ext.link_getFroude j v' y)
    (hflap : ∀ a b q q', ext.link_setFlapGate j a b q = ext.link_setFlapGate j a b q') :
    |(dwflow_findConduitFlow (withRough sp r2) ext j 0 omega dt).1.newFlow| ≤
      |(dwflow_findConduitFlow sp ext j 0 omega dt).1.newFlow| := by
  have hsetup : dwflow_setup (withRough sp r2) ext j = dwflow_setup sp ext j := rfl
  by_cases hE : (dwflow_setup sp ext j).flowClass = FlowClass.DRY ∨
      (dwflow_setup sp ext j).flowClass = FlowClass.UP_DRY ∨
      (dwflow_setup sp ext j).flowClass = FlowClass.DN_DRY ∨
      (dwflow_setup sp ext j).isClosed = true ∨ (dwflow_setup sp ext j).aMid ≤ FUDGE
  · have e1 : dwflow_findConduitFlow sp ext j 0 omega dt =
        dwflow_earlyOut sp ext j dt (dwflow_setup sp ext j) := by
      unfold dwflow_findConduitFlow
      exact if_pos hE
    have e2 : dwflow_findConduitFlow (withRough sp r2) ext j 0 omega dt =
        dwflow_earlyOut (withRough sp r2) ext j dt (dwflow_setup sp ext j) := by
      unfold dwflow_findConduitFlow
      rw [hsetup]
      exact if_pos hE
    rw [e1, e2, dwflow_earlyOut_newFlow, dwflow_earlyOut_newFlow]
  · have e1 : dwflow_findConduitFlow sp ext j 0 omega dt =
        dwflow_main sp ext j 0 omega dt (dwflow_setup sp ext j) := by
      unfold dwflow_findConduitFlow
      exact if_neg hE
    have e2 : dwflow_findConduitFlow (withRough sp r2) ext j 0 omega dt =
        dwflow_main (withRough sp r2) ext j 0 omega dt (dwflow_setup sp ext j) := by
      unfold dwflow_findConduitFlow
      rw [hsetup]
      exact if_neg hE
    have hd1 : dwflow_dq1 sp ext j dt (dwflow_setup sp ext j)
        (dwflow_terms sp ext j dt (dwflow_setup sp ext j)) =
      dt * (sp.Conduit (dwflow_setup sp ext j).k).roughFactor
        / ext.rpow (dwflow_terms sp ext j dt (dwflow_setup sp ext j)).rWtd 1.33333
        * |(dwflow_terms sp ext j dt (dwflow_setup sp ext j)).v| := by
      unfold dwflow_dq1
      rw [if_neg hFM]
    rw [e1, e2, dwflow_main_newFlow_rough, dwflow_main_newFlow, if_neg hFM, hd1,
      abs_mul, abs_mul]
    exact mul_le_mul_of_nonneg_right
      (dwflow_pipeline_mono sp ext j omega dt
        ((sp.Conduit (dwflow_setup sp ext j).k).roughFactor) r2 _ _ _ _
        (dwflow_setup sp ext j) _ hR0 hR hdt hrpow hdq5 hculv hfr hflap)
      (abs_nonneg _)

theorem dwflow_friction_mono_witness :
    |(dwflow_findConduitFlow (withRough spW 1) extMW 0 0 1 30).1.newFlow| ≤
      |(dwflow_findConduitFlow spW extMW 0 0 1 30).1.newFlow| :=
  dwflow_friction_mono spW extMW 0 1 30 1
    (by with_unfolding_all decide) (by with_unfolding_all decide) (by norm_num)
    (by with_unfolding_all decide) (by with_unfolding_all decide)
    (by with_unfolding_all decide)
    (fun q q' h => rfl) (fun v v' y => rfl) (fun a b q q' => rfl)

end SWMM
